import Mathlib

/-!
# Verification of the L1_L2_RAD_LSTE swath-to-grid orchestration PGE

Shallow embedding of `src/L1_L2_RAD_LSTE/L1_L2_RAD_LSTE.py` (ECOSTRESS
Collection 2).  Pure Python control flow is translated into executable Lean
definitions; the filesystem is an explicit `World` value; exceptions are an
explicit `PyExc` type carried in `Except`; traced side effects (spatial-index
loads/saves/builds, product builds, file writes) are recorded in a `List Event`.

External collaborators that are not part of this repository's source
(`rasters.KDTree`, the granule readers, `ECOSTRESS.exit_codes`,
`ECOSTRESS.scan_resampling`) are modelled abstractly; each such definition is
marked `Modelled from the spec:` in its doc comment.
-/

namespace RADLSTE

/-- Python exceptions that the source can raise.  The first three are
subclasses of `ECOSTRESSExitCodeException` (the domain hierarchy imported from
`ECOSTRESS.exit_codes`); the rest are ordinary Python exceptions. -/
inductive PyExc where
  | MissingRunConfigValue (msg : String)
  | UnableToParseRunConfig (msg : String)
  | LandFilter (msg : String)
  | ValueError (msg : String)
  | TypeError (msg : String)
  | KeyError (key : String)
  | IOError (msg : String)
  | IndexError (msg : String)
deriving DecidableEq

/-- Whether an exception belongs to the `ECOSTRESSExitCodeException` domain
hierarchy (`MissingRunConfigValue`, `UnableToParseRunConfig` and `LandFilter`
are the members raised by this source file). -/
def isECOSTRESSExitCodeException : PyExc → Bool
  | .MissingRunConfigValue _ => true
  | .UnableToParseRunConfig _ => true
  | .LandFilter _ => true
  | .ValueError _ => false
  | .TypeError _ => false
  | .KeyError _ => false
  | .IOError _ => false
  | .IndexError _ => false

/-- Modelled from the spec: `ECOSTRESS.exit_codes` is not under `src/`; §7
says domain exceptions map to "a small closed set of process outcomes" and the
land filter must be "distinguishable from generic failure in any
status/outcome reporting", so each domain exception carries a distinct
nonzero numeric exit code. -/
def SUCCESS_EXIT_CODE : Nat := 0

/-- Modelled from the spec: exit code returned by `main` when no run-config
filename is supplied (from `ECOSTRESS.exit_codes`, not under `src/`). -/
def RUNCONFIG_FILENAME_NOT_SUPPLIED : Nat := 1

/-- Modelled from the spec: the `exit_code` attribute of each
`ECOSTRESSExitCodeException` subclass (`ECOSTRESS.exit_codes` is not under
`src/`); the codes are pairwise distinct and distinct from success. -/
def exitCodeOf : PyExc → Nat
  | .MissingRunConfigValue _ => 2
  | .UnableToParseRunConfig _ => 3
  | .LandFilter _ => 4
  | _ => 5

/-! ## String utilities mirroring Python semantics -/

/-- Python lexicographic string order (`sorted` on `str` compares code
points), on the character lists. -/
def charListLe : List Char → List Char → Bool
  | [], _ => true
  | _ :: _, [] => false
  | a :: as, b :: bs =>
    if a.toNat < b.toNat then true
    else if b.toNat < a.toNat then false
    else charListLe as bs

/-- Python `<=` on strings (code-point lexicographic). -/
def strLe (a b : String) : Bool := charListLe a.data b.data

/-- Python `sorted` on a list of strings (stable sort under the code-point
lexicographic order). -/
def pySorted (l : List String) : List String :=
  List.insertionSort (fun a b => strLe a b = true) l

/-- Python `os.path.join` for two non-`None` components (POSIX). -/
def pyJoin (a b : String) : String := a ++ "/" ++ b

/-- Python `os.path.join(first, b)` where the first component is an
`Optional[str]`: joining on `None` raises `TypeError`, exactly as CPython's
`posixpath.join` does. -/
def pyJoinOpt (a : Option String) (b : String) : Except PyExc String :=
  match a with
  | none => .error (.TypeError "expected str, bytes or os.PathLike object, not NoneType")
  | some s => .ok (pyJoin s b)

/-- Decimal digit characters of a natural number (most significant first,
with an explicit recursion budget so the definition is structurally
recursive). -/
def decCharsAux : Nat → Nat → List Char
  | 0, _ => []
  | Nat.succ fuel, n =>
    if n < 10 then [Nat.digitChar n]
    else decCharsAux fuel (n / 10) ++ [Nat.digitChar (n % 10)]

/-- Decimal digit characters of a natural number (most significant first),
as produced by Python's `"%d"` formatting. -/
def decChars (n : Nat) : List Char := decCharsAux (n + 1) n

/-- Python zero-padded decimal formatting `f"{n:0{width}d}"` for naturals. -/
def pad (width : Nat) (n : Nat) : String :=
  let s := decChars n
  String.mk (List.replicate (width - s.length) '0' ++ s)

/-- Glob wildcard matching with `*` only (the only wildcard the source's
patterns use); `*` matches any run of characters except `/`, as in
`glob.glob`.  Structurally recursive on an explicit budget; each step
shrinks `pattern.length + text.length`, so the budget the `wildMatch`
wrapper supplies is always sufficient. -/
def wildMatchAux : Nat → List Char → List Char → Bool
  | 0, _, _ => false
  | Nat.succ fuel, pat, s =>
    match pat, s with
    | [], [] => true
    | [], _ :: _ => false
    | p :: ps, [] => if p = '*' then wildMatchAux fuel ps [] else false
    | p :: ps, c :: cs =>
      if p = '*' then
        wildMatchAux fuel ps (c :: cs) || (c != '/' && wildMatchAux fuel (p :: ps) cs)
      else
        p == c && wildMatchAux fuel ps cs

/-- Glob wildcard matching with `*` only. -/
def wildMatch (pat s : List Char) : Bool :=
  wildMatchAux (pat.length + s.length + 1) pat s

/-- Whether the first list is a prefix of the second (used by the
`str.replace` model). -/
def listStartsWith : List Char → List Char → Bool
  | [], _ => true
  | _ :: _, [] => false
  | p :: ps, c :: cs => p == c && listStartsWith ps cs

/-- Replacement engine for Python `str.replace`: replace every
non-overlapping occurrence of `pat` (non-empty in every use this file makes)
left to right.  The explicit budget keeps the recursion structural; each
step consumes at least one character, so `s.length` budget suffices. -/
def replaceAux (pat rep : List Char) : Nat → List Char → List Char
  | _, [] => []
  | 0, s => s
  | Nat.succ fuel, c :: cs =>
    if pat ≠ [] ∧ listStartsWith pat (c :: cs) = true then
      rep ++ replaceAux pat rep fuel (List.drop (pat.length - 1) cs)
    else
      c :: replaceAux pat rep fuel cs

/-- Python `s.replace(pat, rep)`. -/
def pyReplace (s pat rep : String) : String :=
  String.mk (replaceAux pat.data rep.data s.data.length s.data)

/-- Python `s.split("_")` (splitting on a single underscore separator);
`cur` accumulates the current field in reverse. -/
def splitUnderscoreAux : List Char → List Char → List String
  | [], cur => [String.mk cur.reverse]
  | c :: cs, cur =>
    if c = '_' then String.mk cur.reverse :: splitUnderscoreAux cs []
    else splitUnderscoreAux cs (c :: cur)

/-- Python `s.split("_")`. -/
def pySplitUnderscore (s : String) : List String := splitUnderscoreAux s.data []

/-- Python `os.path.dirname` for POSIX paths: everything before the final
slash (empty when there is no slash). -/
def dirName (p : String) : String :=
  match (p.data.reverse.dropWhile (fun c => c != '/')) with
  | [] => ""
  | _ :: rest => String.mk rest.reverse

/-- Python `os.path.basename` for POSIX paths. -/
def baseName (p : String) : String :=
  String.mk ((p.data.reverse.takeWhile (fun c => c != '/')).reverse)

/-- Python `os.path.splitext(...)[0]` applied to a basename: drop the final
dot-extension when one is present. -/
def dropExt (p : String) : String :=
  let rev := p.data.reverse
  let stem := rev.dropWhile (fun c => c != '.')
  match stem with
  | [] => p
  | _ :: rest => String.mk rest.reverse

/-! ## The filesystem world -/

/-- Contents a file in the modelled filesystem can hold. -/
inductive SwathKind where
  | plain
deriving DecidableEq

/-- Swath geometry descriptor: shape is scan-lines by cross-track pixels
(spec §3 SwathGeometry); `tailsClipped` records whether the `clip_tails`
transform has been applied. -/
structure SwathGeometry where
  scanLines : Nat
  crossTrack : Nat
  tailsClipped : Bool
deriving DecidableEq

/-- Target lattice produced by the swath geometry's constructors
(`rasters.RasterGrid` values; the constructors themselves are collaborators
outside `src/`). -/
inductive GridGeometry where
  | geographic (swath : SwathGeometry) (cellSizeDegrees : Rat)
  | UTM (swath : SwathGeometry) (cellSizeMeters : Rat)
deriving DecidableEq

/-- Modelled from the spec: `swath_geometry.geographic(cell_size_degrees)`
(spec §6: "a geographic-lattice constructor parameterized by cell size in
degrees"); the `rasters` package is not under `src/`. -/
def SwathGeometry.geographic (g : SwathGeometry) (cellSizeDegrees : Rat) : GridGeometry :=
  GridGeometry.geographic g cellSizeDegrees

/-- Modelled from the spec: `swath_geometry.UTM(cell_size_meters)` (spec §6:
"a projected-lattice constructor parameterized by cell size in meters"); the
`rasters` package is not under `src/`. -/
def SwathGeometry.UTM (g : SwathGeometry) (cellSizeMeters : Rat) : GridGeometry :=
  GridGeometry.UTM g cellSizeMeters

/-- Modelled from the spec: `clip_tails` from `ECOSTRESS.scan_resampling` is
not under `src/`; spec §4.2 says it drops "a fixed cross-track pixel range"
(the strategy name `remove_105_128` names the removed range 105..128,
24 pixels) and §3 says it "produces a new geometry with a reduced cross-track
pixel range". -/
def clip_tails (g : SwathGeometry) : SwathGeometry :=
  { g with crossTrack := g.crossTrack - 24, tailsClipped := true }

/-- A spatial index value (`rasters.KDTree`).  Modelled from the spec:
`rasters` is not under `src/`; the index is opaque data determined by how it
was obtained (loaded from a file, built for a whole swath against a target
grid within a search radius, or built for one scan line). -/
inductive KDTree where
  | fromFile (path : String)
  | whole (source : SwathGeometry) (target : GridGeometry) (radius : Rat)
  | scan (source : SwathGeometry) (index : Nat) (cellSizeDegrees : Rat)
deriving DecidableEq

/-- Byte content of a modelled file. -/
inductive FileData where
  | text (s : String)
  | kdtreeData (t : KDTree)
  | productData (product : String) (geometry : GridGeometry)
      (kd : Option KDTree) (scans : Option (List KDTree))
  | browseData (product : String)
deriving DecidableEq

/-- The filesystem: an association list of files (most recent write first,
so lookup of the first match models overwrite) plus the set of directories. -/
structure World where
  files : List (String × FileData)
  dirs : List String
deriving DecidableEq

/-- Python `os.path.exists`. -/
def World.pathExists (w : World) (p : String) : Bool :=
  w.files.any (fun e => e.1 == p) || w.dirs.contains p

/-- Reading a file's current content (first match wins). -/
def World.read (w : World) (p : String) : Option FileData :=
  (w.files.find? (fun e => e.1 == p)).map Prod.snd

/-- Writing a file (prepend; the newest entry shadows older ones). -/
def World.write (w : World) (p : String) (d : FileData) : World :=
  { w with files := (p, d) :: w.files }

/-- Python `os.makedirs(p, exist_ok=True)`. -/
def World.makedirs (w : World) (p : String) : World :=
  if w.dirs.contains p then w else { w with dirs := p :: w.dirs }

/-- Python `glob.glob(pattern)` restricted to files, in filesystem
enumeration order (the source always applies `sorted` on top). -/
def rawGlob (w : World) (pattern : String) : List String :=
  (w.files.map Prod.fst).filter (fun p => wildMatch pattern.data p.data)

/-- Loading `KDTree.load(path)` — Modelled from the spec: the loader "trusts the file
blindly" (spec §6); it returns whatever index the file holds, or opaque
file-derived data for any other content. -/
def KDTree.load (w : World) (p : String) : KDTree :=
  match w.read p with
  | some (.kdtreeData t) => t
  | _ => .fromFile p

/-- Saving `kd_tree.save(path)` — persists the serialized index at the path. -/
def KDTree.save (t : KDTree) (w : World) (p : String) : World :=
  w.write p (.kdtreeData t)

/-- Modelled from the spec: `generate_scan_kd_trees` from
`ECOSTRESS.scan_resampling` is not under `src/`; spec §4.2 says scan-by-scan
"builds one index per scan-line against the (unclipped) full-scan geometry",
ordered by scan-line number. -/
def generate_scan_kd_trees (swath : SwathGeometry) (cellSizeDegrees : Rat) : List KDTree :=
  (List.range swath.scanLines).map (fun i => KDTree.scan swath i cellSizeDegrees)

/-! ## Module constants (source lines 33-43) -/

def PGE_NAME : String := "L1_L2_RAD_LSTE"
def DEFAULT_BUILD : String := "0700"
def DEFAULT_WORKING_DIRECTORY : String := "."
def DEFAULT_OUTPUT_DIRECTORY : String := "L1_L2_RAD_LSTE_output"
def CELL_SIZE_DEGREES : Rat := ⟨7, 10000, by norm_num, by norm_num⟩
def CELL_SIZE_METERS : Rat := 70
def SEARCH_RADIUS_METERS : Rat := 100
def PROJECTION_SYSTEM : String := "global_geographic"
def OVERLAP_STRATEGY : String := "checkerboard"

/-! ## Run-config document and its parsing (`L2GL2TRADLSTEConfig.__init__`) -/

/-- A parsed run-config XML document: named groups of key/value pairs, as the
dictionary `self.read_runconfig` returns. -/
abbrev RCGroup := List (String × String)

/-- The whole run-config dictionary. -/
abbrev RunConfigDoc := List (String × RCGroup)

/-- Python `"g" in runconfig`. -/
def docHasGroup (doc : RunConfigDoc) (g : String) : Bool :=
  doc.any (fun e => e.1 == g)

/-- Python `runconfig["g"]` as an option ( `none` means `KeyError`). -/
def docGroup (doc : RunConfigDoc) (g : String) : Option RCGroup :=
  (doc.find? (fun e => e.1 == g)).map Prod.snd

/-- Python `"k" in runconfig["g"]` once the group is in hand. -/
def groupHasKey (grp : RCGroup) (k : String) : Bool :=
  grp.any (fun e => e.1 == k)

/-- Python `runconfig["g"]["k"]` once the group is in hand. -/
def groupVal (grp : RCGroup) (k : String) : Option String :=
  (grp.find? (fun e => e.1 == k)).map Prod.snd

/-- Decimal accumulator parse of a digit string (`none` on any non-digit). -/
def parseNatAux : List Char → Nat → Option Nat
  | [], acc => some acc
  | c :: cs, acc =>
    if '0' ≤ c ∧ c ≤ '9' then parseNatAux cs (acc * 10 + (c.toNat - 48))
    else none

/-- Python `int(s)` (on the non-negative decimal literals run-configs hold);
a non-numeric string raises `ValueError`. -/
def pyInt (s : String) : Except PyExc Nat :=
  match s.data with
  | [] => .error (.ValueError ("invalid literal for int() with base 10: " ++ s))
  | l =>
    match parseNatAux l 0 with
    | some n => .ok n
    | none => .error (.ValueError ("invalid literal for int() with base 10: " ++ s))

/-- What the `L2LSTE` granule collaborator exposes to this source file
(spec §6: "a UTC timestamp, a land-fraction scalar, and a swath geometry
object").  Modelled from the spec: the granule readers are not under `src/`.
`timestamp` is the already-formatted `f"{time_UTC:%Y%m%dT%H%M%S}"` string. -/
structure GranuleMeta where
  timestamp : String
  land_percent : Rat
  geometry : SwathGeometry
deriving DecidableEq

/-- The attributes `L2GL2TRADLSTEConfig.__init__` stores on success
(source lines 400-419). -/
structure ParsedConfig where
  working_directory : String
  output_directory : String
  L2_LSTE_filename : String
  L2_CLOUD_filename : String
  L1B_GEO_filename : String
  L1B_RAD_filename : String
  orbit : Nat
  scene : Nat
  build : String
  product_counter : Nat
  granule_ID : String
  L1CG_RAD_filename : String
  L2G_LSTE_filename : String
  L2G_CLOUD_filename : String
deriving DecidableEq

/-- The values `L2GL2TRADLSTEConfig.__init__` extracts from the run-config
document before it opens the granule (source lines 293-374). -/
structure RawFields where
  working_directory : String
  output_directory : String
  L2_LSTE_filename : String
  L2_CLOUD_filename : String
  L1B_GEO_filename : String
  L1B_RAD_filename : String
  orbit : Nat
  scene : Nat
  build : String
  product_counter : Nat
deriving DecidableEq

/-- The document-side extraction of `L2GL2TRADLSTEConfig.__init__` (source
lines 293-374): membership checks with `MissingRunConfigValue`, unchecked
group accesses that can raise `KeyError`, and `int()` conversions that can
raise `ValueError`.  Date parsing by `dateutil.parser.parse` is abstracted
as succeeding (its failures would be generic exceptions, converted by the
handler exactly like the `KeyError`s modelled here).
`os.path.abspath`/`expanduser` are modelled as identity. -/
def parseRunConfigFields (filename : String) (doc : RunConfigDoc) :
    Except PyExc RawFields := do
  if !docHasGroup doc "StaticAncillaryFileGroup" then
    throw (.MissingRunConfigValue
      ("missing StaticAncillaryFileGroup in L1_L2_RAD_LSTE run-config: " ++ filename))
  let sag := (docGroup doc "StaticAncillaryFileGroup").getD []
  if !groupHasKey sag "L2G_L2T_WORKING" then
    throw (.MissingRunConfigValue
      ("missing StaticAncillaryFileGroup/L2G_L2T_WORKING in L1_L2_RAD_LSTE run-config: " ++ filename))
  let working_directory := (groupVal sag "L2G_L2T_WORKING").getD ""
  if !docHasGroup doc "ProductPathGroup" then
    throw (.MissingRunConfigValue
      ("missing ProductPathGroup in L1_L2_RAD_LSTE run-config: " ++ filename))
  let ppg := (docGroup doc "ProductPathGroup").getD []
  if !groupHasKey ppg "ProductPath" then
    throw (.MissingRunConfigValue
      ("missing ProductPathGroup/ProductPath in L1_L2_RAD_LSTE run-config: " ++ filename))
  let output_directory := (groupVal ppg "ProductPath").getD ""
  if !docHasGroup doc "InputFileGroup" then
    throw (.MissingRunConfigValue
      ("missing InputFileGroup in L1_L2_RAD_LSTE run-config: " ++ filename))
  let ifg := (docGroup doc "InputFileGroup").getD []
  if !groupHasKey ifg "L2_LSTE" then
    throw (.MissingRunConfigValue
      ("missing InputFileGroup/L2_LSTE in L1_L2_RAD_LSTE run-config: " ++ filename))
  let L2_LSTE_filename := (groupVal ifg "L2_LSTE").getD ""
  if !groupHasKey ifg "L2_CLOUD" then
    throw (.MissingRunConfigValue
      ("missing InputFileGroup/L2_CLOUD in L1_L2_RAD_LSTE run-config: " ++ filename))
  let L2_CLOUD_filename := (groupVal ifg "L2_CLOUD").getD ""
  if !groupHasKey ifg "L1B_GEO" then
    throw (.MissingRunConfigValue
      ("missing InputFileGroup/L1B_GEO in L1_L2_RAD_LSTE run-config: " ++ filename))
  let L1B_GEO_filename := (groupVal ifg "L1B_GEO").getD ""
  if !groupHasKey ifg "L1B_RAD" then
    throw (.MissingRunConfigValue
      ("missing InputFileGroup/L1B_RAD in L1_L2_RAD_LSTE run-config: " ++ filename))
  let L1B_RAD_filename := (groupVal ifg "L1B_RAD").getD ""
  let geom ← match docGroup doc "Geometry" with
    | none => throw (.KeyError "Geometry")
    | some g => pure g
  let orbitStr ← match groupVal geom "OrbitNumber" with
    | none => throw (.KeyError "OrbitNumber")
    | some s => pure s
  let orbit ← pyInt orbitStr
  if !groupHasKey geom "SceneId" then
    throw (.MissingRunConfigValue
      ("missing Geometry/SceneId in L1_L2_RAD_LSTE run-config: " ++ filename))
  let scene ← pyInt ((groupVal geom "SceneId").getD "")
  let jig ← match docGroup doc "JobIdentification" with
    | none => throw (.KeyError "JobIdentification")
    | some g => pure g
  if !groupHasKey jig "ProductionDateTime" then
    throw (.MissingRunConfigValue
      ("missing JobIdentification/ProductionDateTime in L1_L2_RAD_LSTE run-config " ++ filename))
  let pex ← match docGroup doc "PrimaryExecutable" with
    | none => throw (.KeyError "PrimaryExecutable")
    | some g => pure g
  if !groupHasKey pex "BuildID" then
    throw (.MissingRunConfigValue
      ("missing PrimaryExecutable/BuildID in L1_L2_RAD_LSTE run-config " ++ filename))
  let build := (groupVal pex "BuildID").getD ""
  if !groupHasKey ppg "ProductCounter" then
    throw (.MissingRunConfigValue
      ("missing ProductPathGroup/ProductCounter in L1_L2_RAD_LSTE run-config " ++ filename))
  let product_counter ← pyInt ((groupVal ppg "ProductCounter").getD "")
  return { working_directory := working_directory
           output_directory := output_directory
           L2_LSTE_filename := L2_LSTE_filename
           L2_CLOUD_filename := L2_CLOUD_filename
           L1B_GEO_filename := L1B_GEO_filename
           L1B_RAD_filename := L1B_RAD_filename
           orbit := orbit
           scene := scene
           build := build
           product_counter := product_counter }

/-- Source lines 388-397: granule-ID and per-product output-path assembly. -/
def assembleConfig (flds : RawFields) (granule : GranuleMeta) : ParsedConfig :=
  let suffix := pad 5 flds.orbit ++ "_" ++ pad 3 flds.scene ++ "_" ++ granule.timestamp
    ++ "_" ++ flds.build ++ "_" ++ pad 2 flds.product_counter
  { working_directory := flds.working_directory
    output_directory := flds.output_directory
    L2_LSTE_filename := flds.L2_LSTE_filename
    L2_CLOUD_filename := flds.L2_CLOUD_filename
    L1B_GEO_filename := flds.L1B_GEO_filename
    L1B_RAD_filename := flds.L1B_RAD_filename
    orbit := flds.orbit
    scene := flds.scene
    build := flds.build
    product_counter := flds.product_counter
    granule_ID := "ECOv002_L1_L2_RAD_LSTE_" ++ suffix
    L1CG_RAD_filename :=
      pyJoin flds.output_directory ("ECOv002_L1CG_RAD_" ++ suffix ++ ".h5")
    L2G_LSTE_filename :=
      pyJoin flds.output_directory ("ECOv002_L2G_LSTE_" ++ suffix ++ ".h5")
    L2G_CLOUD_filename :=
      pyJoin flds.output_directory ("ECOv002_L2G_CLOUD_" ++ suffix ++ ".h5") }

/-- The body of the `try` block of `L2GL2TRADLSTEConfig.__init__` (source
lines 293-419): extract fields from the document, open the granule, raise
`LandFilter` on a land fraction of exactly zero (source lines 385-386), then
assemble identifiers and output paths. -/
def configInit_body (filename : String) (doc : RunConfigDoc) (granule : GranuleMeta) :
    Except PyExc ParsedConfig := do
  let flds ← parseRunConfigFields filename doc
  if granule.land_percent = 0 then
    throw (.LandFilter "skipping ocean scene with OverAllLandFraction value of 0")
  return assembleConfig flds granule

/-- The constructor `L2GL2TRADLSTEConfig.__init__` including its exception handlers (source
lines 420-426): `MissingRunConfigValue` and any other
`ECOSTRESSExitCodeException` re-raise unchanged; every other exception is
logged and replaced by `UnableToParseRunConfig`. -/
def L2GL2TRADLSTEConfig_init (filename : String) (doc : RunConfigDoc)
    (granule : GranuleMeta) : Except PyExc ParsedConfig :=
  match configInit_body filename doc granule with
  | .ok c => .ok c
  | .error e =>
    match e with
    | .MissingRunConfigValue m => .error (.MissingRunConfigValue m)
    | e =>
      if isECOSTRESSExitCodeException e then .error e
      else .error (.UnableToParseRunConfig ("unable to parse run-config file: " ++ filename))

/-! ## The orchestrator `L1_L2_RAD_LSTE` (source lines 429-766) -/

/-- Traced side effects of the orchestrator.  Existence checks and log lines
are not traced; spatial-index I/O, directory creation, builder invocations and
output writes are. -/
inductive Event where
  | loadIndex (path : String)
  | saveIndex (path : String)
  | buildWholeIndex (source : SwathGeometry) (target : GridGeometry) (radius : Rat)
  | buildScanIndices (count : Nat)
  | madeDirs (path : String)
  | builderInvoked (product : String) (geometry : GridGeometry)
      (kd : Option KDTree) (scans : Option (List KDTree))
  | openedExisting (product : String) (path : String)
  | wroteFile (path : String)
  | wroteBrowse (path : String)
  | tiled (product : String)
deriving DecidableEq

/-- Source lines 543-549: when no explicit `gridded_geometry` is passed,
derive it from the swath for the configured projection system; an
unrecognized projection system raises `ValueError`. -/
def resolveGriddedGeometry (gridded_geometry : Option GridGeometry)
    (projection_system : String) (swath : SwathGeometry)
    (cell_size_meters cell_size_degrees : Rat) : Except PyExc GridGeometry :=
  match gridded_geometry with
  | some g => .ok g
  | none =>
    if projection_system = "local_UTM" then
      .ok (swath.UTM cell_size_meters)
    else if projection_system = "global_geographic" then
      .ok (swath.geographic cell_size_degrees)
    else
      .error (.ValueError ("unrecognized projection system: " ++ projection_system))

/-- Result of the overlap-strategy dispatch block: the (possibly rebound)
`kd_tree`, `scan_kd_trees`, `swath_geometry` and `kd_tree_path` variables,
the filesystem afterwards, and the traced index I/O. -/
structure OverlapResult where
  kd_tree : Option KDTree
  scan_kd_trees : Option (List KDTree)
  swath_geometry : SwathGeometry
  kd_tree_path : Option String
  world : World
  trace : List Event
deriving DecidableEq

/-- The `for i, kd_tree in enumerate(scan_kd_trees): ... kd_tree.save(...)`
loop of source lines 613-616, saving each per-scan index under a two-digit
zero-padded ordinal name inside the cache directory. -/
def saveScanTrees (d : String) : List (Nat × KDTree) → World → World × List Event
  | [], w => (w, [])
  | (i, t) :: rest, w =>
    let p := pyJoin d (pad 2 i ++ ".kdtree")
    let r := saveScanTrees d rest (t.save w p)
    (r.1, Event.saveIndex p :: r.2)

/-- The overlap-strategy dispatch of source lines 556-651.  Python loop
variables leak: after the scan-by-scan save loop, `kd_tree` is the last
per-scan index and `kd_tree_path` the last per-scan filename. -/
def resolveOverlap (overlap_strategy : String) (kd_tree_path : Option String)
    (kd_tree : Option KDTree) (scan_kd_trees : Option (List KDTree))
    (swath_geometry : SwathGeometry) (gridded_geometry : GridGeometry)
    (search_radius_meters cell_size_degrees : Rat) (w : World) :
    Except PyExc OverlapResult :=
  if overlap_strategy = "checkerboard" then
    match kd_tree_path with
    | some p =>
      if w.pathExists p then
        .ok { kd_tree := some (KDTree.load w p), scan_kd_trees := scan_kd_trees
              swath_geometry := swath_geometry, kd_tree_path := some p
              world := w, trace := [.loadIndex p] }
      else
        let t := KDTree.whole swath_geometry gridded_geometry search_radius_meters
        .ok { kd_tree := some t, scan_kd_trees := scan_kd_trees
              swath_geometry := swath_geometry, kd_tree_path := some p
              world := t.save w p
              trace := [.buildWholeIndex swath_geometry gridded_geometry search_radius_meters,
                        .saveIndex p] }
    | none =>
      let t := KDTree.whole swath_geometry gridded_geometry search_radius_meters
      .ok { kd_tree := some t, scan_kd_trees := scan_kd_trees
            swath_geometry := swath_geometry, kd_tree_path := none
            world := w
            trace := [.buildWholeIndex swath_geometry gridded_geometry search_radius_meters] }
  else if overlap_strategy = "scan_by_scan" then
    match scan_kd_trees with
    | some ts =>
      .ok { kd_tree := kd_tree, scan_kd_trees := some ts
            swath_geometry := swath_geometry, kd_tree_path := kd_tree_path
            world := w, trace := [] }
    | none =>
      match kd_tree_path with
      | some d =>
        if w.pathExists d then
          let names := pySorted (rawGlob w (pyJoin d "*.kdtree"))
          .ok { kd_tree := kd_tree
                scan_kd_trees := some (names.map (KDTree.load w))
                swath_geometry := swath_geometry, kd_tree_path := some d
                world := w, trace := names.map Event.loadIndex }
        else
          let ts := generate_scan_kd_trees swath_geometry cell_size_degrees
          let w1 := w.makedirs d
          let sres := saveScanTrees d ts.enum w1
          .ok { kd_tree := match ts.getLast? with
                  | some t => some t
                  | none => kd_tree
                scan_kd_trees := some ts
                swath_geometry := swath_geometry
                kd_tree_path := match ts.length with
                  | 0 => some d
                  | Nat.succ k => some (pyJoin d (pad 2 k ++ ".kdtree"))
                world := sres.1
                trace := Event.buildScanIndices ts.length :: Event.madeDirs d :: sres.2 }
      | none =>
        let ts := generate_scan_kd_trees swath_geometry cell_size_degrees
        .ok { kd_tree := kd_tree, scan_kd_trees := some ts
              swath_geometry := swath_geometry, kd_tree_path := none
              world := w, trace := [Event.buildScanIndices ts.length] }
  else if overlap_strategy = "remove_105_128" then
    let swath2 := clip_tails swath_geometry
    match kd_tree_path with
    | some p =>
      if w.pathExists p then
        .ok { kd_tree := some (KDTree.load w p), scan_kd_trees := scan_kd_trees
              swath_geometry := swath2, kd_tree_path := some p
              world := w, trace := [.loadIndex p] }
      else
        let t := KDTree.whole swath2 gridded_geometry search_radius_meters
        .ok { kd_tree := some t, scan_kd_trees := scan_kd_trees
              swath_geometry := swath2, kd_tree_path := some p
              world := t.save w p
              trace := [.buildWholeIndex swath2 gridded_geometry search_radius_meters,
                        .saveIndex p] }
    | none =>
      let t := KDTree.whole swath2 gridded_geometry search_radius_meters
      .ok { kd_tree := some t, scan_kd_trees := scan_kd_trees
            swath_geometry := swath2, kd_tree_path := none
            world := w
            trace := [.buildWholeIndex swath2 gridded_geometry search_radius_meters] }
  else
    .error (.ValueError ("unrecognized overlap strategy: " ++ overlap_strategy))

/-- Python `filename.replace(".h5", ".png")` deriving a browse-image path. -/
def browseName (p : String) : String := pyReplace p ".h5" ".png"

/-- Handle returned by a product stage. -/
inductive ProductHandle where
  | openedFrom (path : String)
  | builtNew (path : String)
deriving DecidableEq

/-- One product stage (each of the three identical blocks at source lines
655-679, 694-719 and 731-756): if the primary file and the browse image both
exist, open the existing product without invoking the builder; otherwise
invoke the `from_swath` builder, write the primary file, then render and
write the browse image. -/
def ensureProduct (product : String) (primary : String) (browse : String)
    (geometry : GridGeometry) (kd : Option KDTree) (scans : Option (List KDTree))
    (w : World) : ProductHandle × World × List Event :=
  if w.pathExists primary && w.pathExists browse then
    (.openedFrom primary, w, [.openedExisting product primary])
  else
    let w1 := w.write primary (.productData product geometry kd scans)
    let w2 := w1.write browse (.browseData product)
    (.builtNew primary, w2,
     [.builderInvoked product geometry kd scans, .wroteFile primary, .wroteBrowse browse])

/-- Arguments of `L1_L2_RAD_LSTE` (source lines 429-443), with the external
inputs the function reads (run-config document, granule metadata) alongside
the keyword parameters. -/
structure RunArgs where
  runconfig_filename : String
  doc : RunConfigDoc
  granule : GranuleMeta
  process_tiles : Bool := true
  cell_size_degrees : Rat := CELL_SIZE_DEGREES
  cell_size_meters : Rat := CELL_SIZE_METERS
  gridded_geometry : Option GridGeometry := none
  kd_tree : Option KDTree := none
  scan_kd_trees : Option (List KDTree) := none
  kd_tree_path : Option String := none
  search_radius_meters : Rat := SEARCH_RADIUS_METERS
  overlap_strategy : String := OVERLAP_STRATEGY
  projection_system : String := PROJECTION_SYSTEM
deriving DecidableEq

instance {ε α : Type} [DecidableEq ε] [DecidableEq α] : DecidableEq (Except ε α)
  | .error a, .error b =>
    if h : a = b then .isTrue (congrArg Except.error h)
    else .isFalse (fun hh => h (Except.error.inj hh))
  | .error _, .ok _ => .isFalse (fun hh => Except.noConfusion hh)
  | .ok _, .error _ => .isFalse (fun hh => Except.noConfusion hh)
  | .ok a, .ok b =>
    if h : a = b then .isTrue (congrArg Except.ok h)
    else .isFalse (fun hh => h (Except.ok.inj hh))

/-- Outcome of one `L1_L2_RAD_LSTE` invocation: either a returned exit code
(`Except.ok`) or an exception that escaped the function (`Except.error`),
plus the final filesystem and the trace. -/
structure RunResult where
  outcome : Except PyExc Nat
  world : World
  trace : List Event
deriving DecidableEq

/-- Source lines 513-514: when no `kd_tree_path` argument is given, default
it to `join(working_directory, f"{granule_ID}.kdtree")`. -/
def effectiveKDTreePath (ktp : Option String) (cfg : ParsedConfig) : Option String :=
  match ktp with
  | none => some (pyJoin cfg.working_directory (cfg.granule_ID ++ ".kdtree"))
  | some p => some p

/-- The body of the `try` block of `L1_L2_RAD_LSTE` (source lines 452-756):
config resolution, default K-D tree path, gridded-geometry resolution,
overlap-strategy dispatch, the unconditional geographic re-derivation of the
gridded geometry (source line 653), then the three product stages in fixed
order with optional tiling. -/
def pipelineBody (a : RunArgs) (w : World) :
    Except PyExc Unit × World × List Event :=
  match L2GL2TRADLSTEConfig_init a.runconfig_filename a.doc a.granule with
  | .error e => (.error e, w, [])
  | .ok cfg =>
    let kd_tree_path : Option String := effectiveKDTreePath a.kd_tree_path cfg
    let swath_geometry := a.granule.geometry
    match resolveGriddedGeometry a.gridded_geometry a.projection_system swath_geometry
        a.cell_size_meters a.cell_size_degrees with
    | .error e => (.error e, w, [])
    | .ok gridded_geometry =>
      match resolveOverlap a.overlap_strategy kd_tree_path a.kd_tree a.scan_kd_trees
          swath_geometry gridded_geometry a.search_radius_meters a.cell_size_degrees w with
      | .error e => (.error e, w, [])
      | .ok r =>
        let gridded2 := r.swath_geometry.geographic a.cell_size_degrees
        let s1 := ensureProduct "L1CG_RAD" cfg.L1CG_RAD_filename
          (browseName cfg.L1CG_RAD_filename) gridded2 r.kd_tree r.scan_kd_trees r.world
        let t1 := if a.process_tiles then s1.2.2 ++ [.tiled "L1CG_RAD"] else s1.2.2
        let s2 := ensureProduct "L2G_LSTE" cfg.L2G_LSTE_filename
          (browseName cfg.L2G_LSTE_filename) gridded2 r.kd_tree r.scan_kd_trees s1.2.1
        let t2 := if a.process_tiles then s2.2.2 ++ [.tiled "L2G_LSTE"] else s2.2.2
        let s3 := ensureProduct "L2G_CLOUD" cfg.L2G_CLOUD_filename
          (browseName cfg.L2G_CLOUD_filename) gridded2 r.kd_tree r.scan_kd_trees s2.2.1
        (.ok (), s3.2.1, r.trace ++ t1 ++ t2 ++ s3.2.2)

/-- The orchestrator `L1_L2_RAD_LSTE` (source lines 429-766): run the pipeline body inside the
single `except ECOSTRESSExitCodeException` handler, which maps a domain
exception to its numeric exit code; any other exception escapes. -/
def L1_L2_RAD_LSTE_run (a : RunArgs) (w : World) : RunResult :=
  match pipelineBody a w with
  | (.ok _, w', tr) => { outcome := .ok SUCCESS_EXIT_CODE, world := w', trace := tr }
  | (.error e, w', tr) =>
    if isECOSTRESSExitCodeException e then
      { outcome := .ok (exitCodeOf e), world := w', trace := tr }
    else
      { outcome := .error e, world := w', trace := tr }

/-! ## `generate_L1_L2_RAD_LSTE_runconfig` (source lines 48-260) -/

/-- Python negative indexing `l[-k]`; out of range raises `IndexError`. -/
def negIdx (l : List String) (k : Nat) : Except PyExc String :=
  if h : k ≤ l.length ∧ 0 < k then
    .ok (l.get ⟨l.length - k, by omega⟩)
  else
    .error (.IndexError "list index out of range")

/-- The two-pattern search for a companion granule file next to the L2 LSTE
file (source lines 89-103 and the analogous GEO/RAD blocks): try the pattern
carrying the build tag, fall back to the pattern without it, take the last
candidate in sorted order, or raise `ValueError`. -/
def searchCandidates (w : World) (directory : String) (patternTag errTag : String)
    (orbit scene : Nat) (build : String) : Except PyExc String :=
  let pat1 := pyJoin directory
    ("*_" ++ patternTag ++ "_" ++ pad 5 orbit ++ "_" ++ pad 3 scene ++ "_*_" ++ build ++ "_*.h5")
  let c1 := pySorted (rawGlob w pat1)
  match c1.getLast? with
  | some f => .ok f
  | none =>
    let pat2 := pyJoin directory
      ("*_" ++ patternTag ++ "_" ++ pad 5 orbit ++ "_" ++ pad 3 scene ++ "_*.h5")
    let c2 := pySorted (rawGlob w pat2)
    match c2.getLast? with
    | some f => .ok f
    | none => .error (.ValueError ("no " ++ errTag ++ " filename given or found"))

/-- The keyword arguments of `generate_L1_L2_RAD_LSTE_runconfig`; Python
`None` defaults are `Option.none`. -/
structure GenArgs where
  L2_LSTE_filename : String
  L2_CLOUD_filename : Option String := none
  L1B_GEO_filename : Option String := none
  L1B_RAD_filename : Option String := none
  orbit : Option Nat := none
  scene : Option Nat := none
  working_directory : Option String := none
  executable_filename : Option String := none
  output_directory : Option String := none
  runconfig_filename : Option String := none
  log_filename : Option String := none
  build : Option String := none
  processing_node : Option String := none
  production_datetime : Option String := none
  job_ID : Option String := none
  instance_ID : Option String := none
  product_counter : Option Nat := none
  template_filename : Option String := none
deriving DecidableEq

/-- Environment collaborators `generate_L1_L2_RAD_LSTE_runconfig` consults:
`shutil.which`, `socket.gethostname`, `datetime.utcnow`, `uuid4`, and the
timestamp the `L2LSTE` granule reader reports (the reader itself is outside
`src/`, spec §6). -/
structure GenEnv where
  whichResult : Option String
  hostName : String
  nowStr : String
  uuidStr : String
  granuleTimestamp : String
deriving DecidableEq

/-- The generator `generate_L1_L2_RAD_LSTE_runconfig` (source lines 48-260), modelled up to
identity `abspath`/`expanduser`.  Returns the run-config filename and the
filesystem afterwards, or the exception the call raises.  Note the order the
source fixes: `output_directory` is derived from `working_directory` at line
155 and `runconfig_filename` at line 196, both before the
`working_directory is None` default is assigned at lines 208-209. -/
def generate_L1_L2_RAD_LSTE_runconfig (g : GenArgs) (env : GenEnv) (w : World) :
    Except PyExc (String × World) := do
  let L2_LSTE_filename := g.L2_LSTE_filename
  if !w.pathExists L2_LSTE_filename then
    throw (.IOError ("L2 LSTE file not found: " ++ L2_LSTE_filename))
  let source_granule_ID := dropExt (baseName L2_LSTE_filename)
  let parts := pySplitUnderscore source_granule_ID
  let orbit ← match g.orbit with
    | some o => pure o
    | none => do pyInt (← negIdx parts 5)
  let scene ← match g.scene with
    | some s => pure s
    | none => do pyInt (← negIdx parts 4)
  let build ← match g.build with
    | some b => pure b
    | none => negIdx parts 2
  let directory := dirName L2_LSTE_filename
  let L2_CLOUD_filename ← match g.L2_CLOUD_filename with
    | some c => pure c
    | none => searchCandidates w directory "L2_CLOUD" "L2 CLOUD" orbit scene build
  let L1B_GEO_filename ← match g.L1B_GEO_filename with
    | some c => pure c
    | none => searchCandidates w directory "L1B_GEO" "L1B GEO" orbit scene build
  let L1B_RAD_filename ← match g.L1B_RAD_filename with
    | some c => pure c
    | none => searchCandidates w directory "L1B_RAD" "L1B RAD" orbit scene build
  let template_filename := g.template_filename.getD "L1_L2_RAD_LSTE.xml"
  let executable_filename :=
    match g.executable_filename with
    | some e => e
    | none => env.whichResult.getD "L1_L2_RAD_LSTE"
  let output_directory ← match g.output_directory with
    | some o => pure o
    | none => pyJoinOpt g.working_directory DEFAULT_OUTPUT_DIRECTORY
  let processing_node := g.processing_node.getD env.hostName
  let production_datetime := g.production_datetime.getD env.nowStr
  let job_ID := g.job_ID.getD production_datetime
  let instance_ID := g.instance_ID.getD env.uuidStr
  let product_counter := g.product_counter.getD 1
  let timestamp := env.granuleTimestamp
  let granule_ID := "ECOv002_L1_L2_RAD_LSTE_" ++ pad 5 orbit ++ "_" ++ pad 3 scene
    ++ "_" ++ timestamp ++ "_" ++ build ++ "_" ++ pad 2 product_counter
  let runconfig_filename ← match g.runconfig_filename with
    | some r => pure r
    | none => do pure (pyJoin (← pyJoinOpt g.working_directory "runconfig") (granule_ID ++ ".xml"))
  if w.pathExists runconfig_filename then
    return (runconfig_filename, w)
  let log_filename ← match g.log_filename with
    | some l => pure l
    | none => do pure (pyJoin (← pyJoinOpt g.working_directory "log") (granule_ID ++ ".log"))
  let working_directory := g.working_directory.getD granule_ID
  let template ← match w.read template_filename with
    | some (.text tpl) => pure tpl
    | _ => throw (.IOError ("No such file or directory: " ++ template_filename))
  let filled := pyReplace (pyReplace (pyReplace (pyReplace (pyReplace (pyReplace
    (pyReplace (pyReplace (pyReplace (pyReplace (pyReplace (pyReplace (pyReplace
    (pyReplace (pyReplace (pyReplace (pyReplace template
    "orbit_number" (pad 5 orbit))
    "scene_ID" (pad 3 scene))
    "L2_LSTE_filename" L2_LSTE_filename)
    "L2_CLOUD_filename" L2_CLOUD_filename)
    "L1B_GEO_filename" L1B_GEO_filename)
    "L1B_RAD_filename" L1B_RAD_filename)
    "working_directory" working_directory)
    "executable_filename" executable_filename)
    "output_directory" output_directory)
    "runconfig_filename" runconfig_filename)
    "log_filename" log_filename)
    "build_ID" build)
    "processing_node" processing_node)
    "production_datetime" production_datetime)
    "job_ID" job_ID)
    "instance_ID" instance_ID)
    "product_counter" (pad 2 product_counter)
  let w1 := w.makedirs (dirName runconfig_filename)
  let w2 := w1.write runconfig_filename (.text filled)
  return (runconfig_filename, w2)

/-- The entry point `main` (source lines 769-784): with no arguments beyond the program name
(or with `--version`) print usage and return the corresponding code;
otherwise run the pipeline on the first argument. -/
def main (argv : List String) (a : RunArgs) (w : World) : Except PyExc Nat :=
  if argv.length = 1 || argv.contains "--version" then
    if argv.contains "--version" then .ok SUCCESS_EXIT_CODE
    else .ok RUNCONFIG_FILENAME_NOT_SUPPLIED
  else
    (L1_L2_RAD_LSTE_run a w).outcome

/-! ## Concrete fixtures used by witnesses and counterexamples -/

/-- An empty filesystem. -/
def emptyWorld : World := { files := [], dirs := [] }

/-- A small swath: 2 scan lines of 128 cross-track pixels. -/
def sampleSwath : SwathGeometry :=
  { scanLines := 2, crossTrack := 128, tailsClipped := false }

/-- Granule metadata for a land scene. -/
def sampleGranule : GranuleMeta :=
  { timestamp := "20200101T000000", land_percent := 50, geometry := sampleSwath }

/-- Granule metadata for an all-ocean scene (land fraction exactly zero). -/
def oceanGranule : GranuleMeta :=
  { timestamp := "20200101T000000", land_percent := 0, geometry := sampleSwath }

/-- A complete, well-formed run-config document. -/
def sampleDoc : RunConfigDoc :=
  [("StaticAncillaryFileGroup", [("L2G_L2T_WORKING", "wd")]),
   ("ProductPathGroup", [("ProductPath", "out"), ("ProductCounter", "1")]),
   ("InputFileGroup", [("L2_LSTE", "in/lste.h5"), ("L2_CLOUD", "in/cloud.h5"),
                       ("L1B_GEO", "in/geo.h5"), ("L1B_RAD", "in/rad.h5")]),
   ("Geometry", [("OrbitNumber", "5"), ("SceneId", "3")]),
   ("JobIdentification", [("ProductionDateTime", "2020-01-01 00:00:00")]),
   ("PrimaryExecutable", [("BuildID", "0700")])]

/-- Like `sampleDoc` but with the `Geometry` group removed: the unchecked
`runconfig["Geometry"]` access raises `KeyError`, a non-domain exception. -/
def docNoGeometry : RunConfigDoc :=
  [("StaticAncillaryFileGroup", [("L2G_L2T_WORKING", "wd")]),
   ("ProductPathGroup", [("ProductPath", "out"), ("ProductCounter", "1")]),
   ("InputFileGroup", [("L2_LSTE", "in/lste.h5"), ("L2_CLOUD", "in/cloud.h5"),
                       ("L1B_GEO", "in/geo.h5"), ("L1B_RAD", "in/rad.h5")]),
   ("JobIdentification", [("ProductionDateTime", "2020-01-01 00:00:00")]),
   ("PrimaryExecutable", [("BuildID", "0700")])]

/-- Default-parameter run arguments over the sample document and granule. -/
def sampleArgs : RunArgs :=
  { runconfig_filename := "rc.xml", doc := sampleDoc, granule := sampleGranule }

/-- The granule ID `sampleDoc` and `sampleGranule` produce. -/
def sampleGranuleID : String :=
  "ECOv002_L1_L2_RAD_LSTE_00005_003_20200101T000000_0700_01"

/-- The default whole-scene K-D tree cache path for the sample run. -/
def sampleKDTreePath : String := "wd/" ++ sampleGranuleID ++ ".kdtree"

/-- The parsed configuration `sampleDoc` and `sampleGranule` resolve to. -/
def sampleCfg : ParsedConfig :=
  { working_directory := "wd", output_directory := "out"
    L2_LSTE_filename := "in/lste.h5", L2_CLOUD_filename := "in/cloud.h5"
    L1B_GEO_filename := "in/geo.h5", L1B_RAD_filename := "in/rad.h5"
    orbit := 5, scene := 3, build := "0700", product_counter := 1
    granule_ID := sampleGranuleID
    L1CG_RAD_filename := "out/ECOv002_L1CG_RAD_00005_003_20200101T000000_0700_01.h5"
    L2G_LSTE_filename := "out/ECOv002_L2G_LSTE_00005_003_20200101T000000_0700_01.h5"
    L2G_CLOUD_filename := "out/ECOv002_L2G_CLOUD_00005_003_20200101T000000_0700_01.h5" }

/-! ## Trace classification helpers -/

/-- Spatial-index resolution effects: index loads, saves, builds, and cache
directory creation. -/
def isIndexEvent : Event → Bool
  | .loadIndex _ => true
  | .saveIndex _ => true
  | .buildWholeIndex _ _ _ => true
  | .buildScanIndices _ => true
  | .madeDirs _ => true
  | _ => false

/-- Product-stage effects: builder invocations, opens of existing products,
output writes and tiling. -/
def isStageEvent : Event → Bool
  | .builderInvoked _ _ _ _ => true
  | .openedExisting _ _ => true
  | .wroteFile _ => true
  | .wroteBrowse _ => true
  | .tiled _ => true
  | _ => false

/-- The product a stage-completion event belongs to (its builder invocation
or its open-of-existing), `none` for every other event. -/
def stageMarker : Event → Option String
  | .builderInvoked p _ _ _ => some p
  | .openedExisting p _ => some p
  | _ => none

/-- Number of whole-swath index builds in a trace. -/
def countWholeBuilds (tr : List Event) : Nat :=
  tr.countP fun e => match e with | .buildWholeIndex _ _ _ => true | _ => false

/-- Number of per-scan-line bulk index builds in a trace. -/
def countScanBuilds (tr : List Event) : Nat :=
  tr.countP fun e => match e with | .buildScanIndices _ => true | _ => false

/-- Number of index saves in a trace. -/
def countSaves (tr : List Event) : Nat :=
  tr.countP fun e => match e with | .saveIndex _ => true | _ => false

/-! ## Fixtures for the scan-by-scan cardinality claim -/

/-- A swath with 101 scan lines: one more than two-digit zero-padding can
order lexically. -/
def c8Swath : SwathGeometry := { scanLines := 101, crossTrack := 1, tailsClipped := false }

/-- A target grid for the 101-scan swath. -/
def c8Grid : GridGeometry := GridGeometry.geographic c8Swath 1

/-- First scan-by-scan run on an empty filesystem with an absent cache
directory: builds and persists 101 per-scan indices. -/
def c8Res : OverlapResult :=
  match resolveOverlap "scan_by_scan" (some "cache") none none c8Swath c8Grid 100 1
      emptyWorld with
  | .ok r => r
  | .error _ =>
    { kd_tree := none, scan_kd_trees := none, swath_geometry := c8Swath
      kd_tree_path := none, world := emptyWorld, trace := [] }

/-- Second scan-by-scan run over the filesystem the first run left: loads
the cached per-scan indices in lexical filename order. -/
def c8Res2 : OverlapResult :=
  match resolveOverlap "scan_by_scan" (some "cache") none none c8Swath c8Grid 100 1
      c8Res.world with
  | .ok r => r
  | .error _ =>
    { kd_tree := none, scan_kd_trees := none, swath_geometry := c8Swath
      kd_tree_path := none, world := emptyWorld, trace := [] }

/-! ## Fixtures for the run-config generator claim -/

/-- A filesystem holding just the L2 LSTE input granule. -/
def c10World : World := { files := [("in/lste.h5", .text "")], dirs := [] }

/-- Generator call with every granule input and identifier supplied but no
working directory and no output directory. -/
def c10Args : GenArgs :=
  { L2_LSTE_filename := "in/lste.h5", L2_CLOUD_filename := some "in/cloud.h5"
    L1B_GEO_filename := some "in/geo.h5", L1B_RAD_filename := some "in/rad.h5"
    orbit := some 5, scene := some 3, build := some "0700" }

/-- Generator call like `c10Args` but with an output directory supplied and
the run-config filename left `None`. -/
def c10ArgsB : GenArgs :=
  { c10Args with output_directory := some "out" }

/-- A filesystem holding only an existing but empty cache directory. -/
def c4World : World := { files := [], dirs := ["cache"] }

/-- A filesystem on which one product's primary file and browse image both
already exist. -/
def c5World : World :=
  { files := [("out/p.h5", .productData "L2G_LSTE"
      (GridGeometry.geographic sampleSwath 1) none none),
     ("out/p.png", .browseData "L2G_LSTE")]
    dirs := [] }

/-- The raw fields `sampleDoc` parses to. -/
def sampleFields : RawFields :=
  { working_directory := "wd", output_directory := "out"
    L2_LSTE_filename := "in/lste.h5", L2_CLOUD_filename := "in/cloud.h5"
    L1B_GEO_filename := "in/geo.h5", L1B_RAD_filename := "in/rad.h5"
    orbit := 5, scene := 3, build := "0700", product_counter := 1 }

/-- Environment collaborators for the generator fixtures. -/
def c10Env : GenEnv :=
  { whichResult := none, hostName := "host", nowStr := "2020-01-01 00:00:00"
    uuidStr := "uuid", granuleTimestamp := "20200101T000000" }

/-! ## Lemmas: characters and the lexicographic string order -/

theorem charToNat_inj {a b : Char} (h : a.toNat = b.toNat) : a = b := by
  apply Char.ext
  apply UInt32.ext
  simpa [Char.toNat, UInt32.toNat] using h

theorem stringDataInj {a b : String} (h : a.data = b.data) : a = b := by
  cases a
  cases b
  exact congrArg String.mk h

theorem charListLe_cons_iff {a b : Char} {x y : List Char} :
    charListLe (a :: x) (b :: y) = true ↔
      (a.toNat < b.toNat ∨ (a.toNat = b.toNat ∧ charListLe x y = true)) := by
  simp only [charListLe]
  by_cases h1 : a.toNat < b.toNat
  · simp [h1]
  · by_cases h2 : b.toNat < a.toNat
    · simp [h1, h2]
      omega
    · have h3 : a.toNat = b.toNat := by omega
      simp [h1, h2, h3]

theorem charListLe_trans :
    ∀ {x y z : List Char}, charListLe x y = true → charListLe y z = true →
      charListLe x z = true
  | [], _, _, _, _ => rfl
  | _ :: _, [], _, hxy, _ => by simp [charListLe] at hxy
  | _ :: _, _ :: _, [], _, hyz => by simp [charListLe] at hyz
  | a :: as, b :: bs, c :: cs, hxy, hyz => by
    rw [charListLe_cons_iff] at hxy hyz ⊢
    rcases hxy with h1 | ⟨h1, hr1⟩ <;> rcases hyz with h2 | ⟨h2, hr2⟩
    · exact Or.inl (by omega)
    · exact Or.inl (by omega)
    · exact Or.inl (by omega)
    · exact Or.inr ⟨by omega, charListLe_trans hr1 hr2⟩

theorem charListLe_total :
    ∀ (x y : List Char), charListLe x y = true ∨ charListLe y x = true
  | [], _ => Or.inl rfl
  | _ :: _, [] => Or.inr rfl
  | a :: as, b :: bs => by
    rw [charListLe_cons_iff, charListLe_cons_iff]
    by_cases hab : a.toNat < b.toNat
    · exact Or.inl (Or.inl hab)
    · by_cases hba : b.toNat < a.toNat
      · exact Or.inr (Or.inl hba)
      · rcases charListLe_total as bs with h | h
        · exact Or.inl (Or.inr ⟨by omega, h⟩)
        · exact Or.inr (Or.inr ⟨by omega, h⟩)

theorem charListLe_antisymm :
    ∀ {x y : List Char}, charListLe x y = true → charListLe y x = true → x = y
  | [], [], _, _ => rfl
  | [], _ :: _, _, hyx => by simp [charListLe] at hyx
  | _ :: _, [], hxy, _ => by simp [charListLe] at hxy
  | a :: as, b :: bs, hxy, hyx => by
    rw [charListLe_cons_iff] at hxy hyx
    rcases hxy with h1 | ⟨h1, hr1⟩ <;> rcases hyx with h2 | ⟨h2, hr2⟩ <;>
      try omega
    have hab : a = b := charToNat_inj (by omega)
    rw [hab, charListLe_antisymm hr1 hr2]

theorem charListLe_refl : ∀ (l : List Char), charListLe l l = true
  | [] => rfl
  | a :: as => by
    rw [charListLe_cons_iff]
    exact Or.inr ⟨rfl, charListLe_refl as⟩

theorem strLe_trans {x y z : String} (h1 : strLe x y = true) (h2 : strLe y z = true) :
    strLe x z = true := charListLe_trans h1 h2

theorem strLe_total (x y : String) : strLe x y = true ∨ strLe y x = true :=
  charListLe_total x.data y.data

theorem strLe_antisymm {x y : String} (h1 : strLe x y = true) (h2 : strLe y x = true) :
    x = y := stringDataInj (charListLe_antisymm h1 h2)

theorem charListLe_append_left :
    ∀ (p x y : List Char), charListLe (p ++ x) (p ++ y) = charListLe x y
  | [], _, _ => rfl
  | a :: p, x, y => by
    simp only [List.cons_append, charListLe, lt_irrefl, if_neg]
    exact charListLe_append_left p x y

theorem charListLe_of_head_lt {a b : Char} (x y : List Char) (h : a.toNat < b.toNat) :
    charListLe (a :: x) (b :: y) = true := by
  simp [charListLe, h]

theorem charListLe_cons_same (a : Char) (x y : List Char) :
    charListLe (a :: x) (a :: y) = charListLe x y := by
  simp [charListLe]

/-! ## Lemmas: decimal formatting -/

theorem digitChar_toNat {d : Nat} (h : d < 10) : (Nat.digitChar d).toNat = 48 + d := by
  interval_cases d <;> decide

theorem digitChar_inj {a b : Nat} (ha : a < 10) (hb : b < 10)
    (h : Nat.digitChar a = Nat.digitChar b) : a = b := by
  have : (Nat.digitChar a).toNat = (Nat.digitChar b).toNat := by rw [h]
  rw [digitChar_toNat ha, digitChar_toNat hb] at this
  omega

theorem digitChar_ne_slash {d : Nat} (h : d < 10) : Nat.digitChar d ≠ '/' := by
  interval_cases d <;> decide

theorem digitChar_ne_star {d : Nat} (h : d < 10) : Nat.digitChar d ≠ '*' := by
  interval_cases d <;> decide

theorem decCharsAux_small {fuel n : Nat} (hf : 1 ≤ fuel) (h : n < 10) :
    decCharsAux fuel n = [Nat.digitChar n] := by
  cases fuel with
  | zero => omega
  | succ m => simp [decCharsAux, h]

theorem decChars_small {n : Nat} (h : n < 10) : decChars n = [Nat.digitChar n] :=
  decCharsAux_small (by omega) h

theorem decChars_two {n : Nat} (h1 : 10 ≤ n) (h2 : n ≤ 99) :
    decChars n = [Nat.digitChar (n / 10), Nat.digitChar (n % 10)] := by
  show decCharsAux (n + 1) n = _
  cases hn : n + 1 with
  | zero => omega
  | succ m =>
    simp only [decCharsAux, if_neg (by omega : ¬ n < 10)]
    rw [decCharsAux_small (by omega) (by omega : n / 10 < 10)]
    rfl

theorem pad2_data {n : Nat} (h : n ≤ 99) :
    (pad 2 n).data = [Nat.digitChar (n / 10), Nat.digitChar (n % 10)] := by
  by_cases h10 : n < 10
  · show (List.replicate (2 - (decChars n).length) '0' ++ decChars n) = _
    rw [decChars_small h10]
    have hd : n / 10 = 0 := Nat.div_eq_of_lt h10
    have hm : n % 10 = n := Nat.mod_eq_of_lt h10
    simp [hd, hm, List.replicate]
    rfl
  · show (List.replicate (2 - (decChars n).length) '0' ++ decChars n) = _
    rw [decChars_two (by omega) h]
    simp

theorem pad2_le {i j : Nat} (hij : i ≤ j) (hj : j ≤ 99) (suf : List Char) :
    charListLe ((pad 2 i).data ++ suf) ((pad 2 j).data ++ suf) = true := by
  rw [pad2_data (by omega), pad2_data hj]
  simp only [List.cons_append, List.nil_append]
  by_cases hd : i / 10 < j / 10
  · exact charListLe_of_head_lt _ _ (by
      rw [digitChar_toNat (by omega), digitChar_toNat (by omega)]
      omega)
  · have hdd : i / 10 = j / 10 := by
      have := Nat.div_le_div_right (c := 10) hij
      omega
    rw [hdd, charListLe_cons_same]
    by_cases hm : i % 10 < j % 10
    · exact charListLe_of_head_lt _ _ (by
        rw [digitChar_toNat (by omega), digitChar_toNat (by omega)]
        omega)
    · have : i = j := by omega
      subst this
      rw [charListLe_cons_same]
      exact charListLe_refl suf

theorem pad2_inj {i j : Nat} (hi : i ≤ 99) (hj : j ≤ 99) (h : pad 2 i = pad 2 j) :
    i = j := by
  have hd := congrArg String.data h
  rw [pad2_data hi, pad2_data hj] at hd
  simp only [List.cons.injEq, and_true] at hd
  have h1 := digitChar_inj (by omega) (by omega) hd.1
  have h2 := digitChar_inj (by omega) (by omega) hd.2
  omega

/-! ## Lemmas: wildcard matching -/

theorem wildMatchAux_succ_cons_nil (fuel : Nat) (p : Char) (ps : List Char) :
    wildMatchAux (fuel + 1) (p :: ps) [] =
      (if p = '*' then wildMatchAux fuel ps [] else false) := rfl

theorem wildMatchAux_succ_cons_cons (fuel : Nat) (p : Char) (ps : List Char)
    (c : Char) (cs : List Char) :
    wildMatchAux (fuel + 1) (p :: ps) (c :: cs) =
      (if p = '*' then
        (wildMatchAux fuel ps (c :: cs) || (c != '/' && wildMatchAux fuel (p :: ps) cs))
      else
        (p == c && wildMatchAux fuel ps cs)) := rfl

theorem wildMatchAux_irrel :
    ∀ (n : Nat) {pat s : List Char} {fuel fuel' : Nat},
      pat.length + s.length ≤ n → n < fuel → n < fuel' →
      wildMatchAux fuel pat s = wildMatchAux fuel' pat s := by
  intro n
  induction n with
  | zero =>
    intro pat s fuel fuel' hlen hf hf'
    rcases pat with _ | ⟨p, ps⟩ <;> rcases s with _ | ⟨c, cs⟩ <;> simp at hlen
    cases fuel with
    | zero => omega
    | succ a =>
      cases fuel' with
      | zero => omega
      | succ b => rfl
  | succ m ih =>
    intro pat s fuel fuel' hlen hf hf'
    cases fuel with
    | zero => omega
    | succ a =>
      cases fuel' with
      | zero => omega
      | succ b =>
        rcases pat with _ | ⟨p, ps⟩ <;> rcases s with _ | ⟨c, cs⟩
        · rfl
        · rfl
        · rw [wildMatchAux_succ_cons_nil, wildMatchAux_succ_cons_nil]
          have e1 : wildMatchAux a ps [] = wildMatchAux b ps [] :=
            ih (by simp only [List.length_cons, List.length_nil] at hlen ⊢; omega)
              (by omega) (by omega)
          rw [e1]
        · rw [wildMatchAux_succ_cons_cons, wildMatchAux_succ_cons_cons]
          have e1 : wildMatchAux a ps (c :: cs) = wildMatchAux b ps (c :: cs) :=
            ih (by simp only [List.length_cons] at hlen ⊢; omega) (by omega) (by omega)
          have e2 : wildMatchAux a (p :: ps) cs = wildMatchAux b (p :: ps) cs :=
            ih (by simp only [List.length_cons] at hlen ⊢; omega) (by omega) (by omega)
          have e3 : wildMatchAux a ps cs = wildMatchAux b ps cs :=
            ih (by simp only [List.length_cons] at hlen ⊢; omega) (by omega) (by omega)
          rw [e1, e2, e3]

theorem wildMatchAux_eq_wildMatch {pat s : List Char} {fuel : Nat}
    (h : pat.length + s.length < fuel) :
    wildMatchAux fuel pat s = wildMatch pat s :=
  wildMatchAux_irrel (pat.length + s.length) (le_refl _) h (by omega)

theorem wildMatch_cons_nil (p : Char) (ps : List Char) :
    wildMatch (p :: ps) [] = (if p = '*' then wildMatch ps [] else false) := by
  show wildMatchAux ((p :: ps).length + ([] : List Char).length + 1) _ _ = _
  rw [wildMatchAux_succ_cons_nil,
    wildMatchAux_eq_wildMatch (by simp only [List.length_cons, List.length_nil]; omega)]

theorem wildMatch_cons_cons (p : Char) (ps : List Char) (c : Char) (cs : List Char) :
    wildMatch (p :: ps) (c :: cs) =
      if p = '*' then
        (wildMatch ps (c :: cs) || (c != '/' && wildMatch (p :: ps) cs))
      else
        (p == c && wildMatch ps cs) := by
  show wildMatchAux ((p :: ps).length + (c :: cs).length + 1) _ _ = _
  rw [wildMatchAux_succ_cons_cons,
    wildMatchAux_eq_wildMatch (by simp only [List.length_cons]; omega),
    wildMatchAux_eq_wildMatch (by simp only [List.length_cons]; omega),
    wildMatchAux_eq_wildMatch (by simp only [List.length_cons]; omega)]

theorem wildMatch_literal_head :
    ∀ (q : List Char), '*' ∉ q → ∀ (pat s : List Char),
      wildMatch (q ++ pat) (q ++ s) = wildMatch pat s
  | [], _, pat, s => by simp
  | a :: q', hq, pat, s => by
    have ha : a ≠ '*' := fun h => hq (by rw [h]; exact List.mem_cons_self _ _)
    have hq' : '*' ∉ q' := fun h => hq (List.mem_cons_of_mem _ h)
    simp only [List.cons_append]
    rw [wildMatch_cons_cons, if_neg ha]
    simp [wildMatch_literal_head q' hq' pat s]

theorem wildMatch_star_consume :
    ∀ (xs : List Char), '/' ∉ xs → ∀ (ps s : List Char), wildMatch ps s = true →
      wildMatch ('*' :: ps) (xs ++ s) = true
  | [], _, ps, s, h => by
    simp only [List.nil_append]
    rcases s with _ | ⟨c, cs⟩
    · rw [wildMatch_cons_nil, if_pos rfl]
      exact h
    · rw [wildMatch_cons_cons, if_pos rfl, h]
      rfl
  | x :: xs', hx, ps, s, h => by
    have hxs : x ≠ '/' := fun hh => hx (by rw [hh]; exact List.mem_cons_self _ _)
    have hx' : '/' ∉ xs' := fun hh => hx (List.mem_cons_of_mem _ hh)
    simp only [List.cons_append]
    rw [wildMatch_cons_cons, if_pos rfl]
    have := wildMatch_star_consume xs' hx' ps s h
    simp [this, hxs]

theorem kdtreeName_matches {d : String} (hd : '*' ∉ d.data) {i : Nat} (hi : i ≤ 99) :
    wildMatch (pyJoin d "*.kdtree").data
      (pyJoin d (pad 2 i ++ ".kdtree")).data = true := by
  have hstar : "*.kdtree".data = '*' :: ".kdtree".data := by decide
  have h1 : (pyJoin d "*.kdtree").data = (d.data ++ ['/']) ++ ('*' :: ".kdtree".data) := by
    show (d ++ "/" ++ "*.kdtree").data = _
    rw [String.data_append, String.data_append, hstar]
  have h2 : (pyJoin d (pad 2 i ++ ".kdtree")).data =
      (d.data ++ ['/']) ++ ((pad 2 i).data ++ ".kdtree".data) := by
    show (d ++ "/" ++ (pad 2 i ++ ".kdtree")).data = _
    rw [String.data_append, String.data_append, String.data_append]
  rw [h1, h2]
  rw [wildMatch_literal_head (d.data ++ ['/'])
    (by
      intro hmem
      rcases List.mem_append.mp hmem with hmem | hmem
      · exact hd hmem
      · simp at hmem)]
  apply wildMatch_star_consume
  · rw [pad2_data hi]
    intro hmem
    simp only [List.mem_cons, List.not_mem_nil, or_false] at hmem
    rcases hmem with hmem | hmem
    · exact digitChar_ne_slash (by omega : i / 10 < 10) hmem.symm
    · exact digitChar_ne_slash (by omega : i % 10 < 10) hmem.symm
  · decide

/-! ## Lemmas: the filesystem model -/

theorem World.pathExists_write_self (w : World) (p : String) (d : FileData) :
    (w.write p d).pathExists p = true := by
  simp [World.write, World.pathExists, List.any_cons]

theorem World.pathExists_write_mono {w : World} {p : String} (q : String) (d : FileData)
    (h : w.pathExists p = true) : (w.write q d).pathExists p = true := by
  simp only [World.write, World.pathExists, List.any_cons, Bool.or_eq_true] at h ⊢
  tauto

theorem World.read_write_self (w : World) (p : String) (d : FileData) :
    (w.write p d).read p = some d := by
  simp [World.read, World.write, List.find?_cons]

theorem stage_not_index {e : Event} (h : isStageEvent e = true) : isIndexEvent e = false := by
  cases e <;> simp [isStageEvent, isIndexEvent] at h ⊢

/-! ## Lemmas: the product stage -/

theorem ensureProduct_trace_stage (prod pr br : String) (g : GridGeometry)
    (kd : Option KDTree) (sc : Option (List KDTree)) (w : World) :
    ∀ e ∈ (ensureProduct prod pr br g kd sc w).2.2, isStageEvent e = true := by
  intro e he
  unfold ensureProduct at he
  split at he <;> simp only [List.mem_cons, List.mem_singleton,
    List.not_mem_nil, or_false] at he
  · rw [he]
    rfl
  · rcases he with he | he | he <;> rw [he] <;> rfl

theorem ensureProduct_trace_marker (prod pr br : String) (g : GridGeometry)
    (kd : Option KDTree) (sc : Option (List KDTree)) (w : World) :
    (ensureProduct prod pr br g kd sc w).2.2.filterMap stageMarker = [prod] := by
  unfold ensureProduct
  split <;> simp [stageMarker]

theorem ensureProduct_builder_mem {p1 : String} {g1 : GridGeometry} {k1 : Option KDTree}
    {s1 : Option (List KDTree)} {prod pr br : String} {g : GridGeometry}
    {kd : Option KDTree} {sc : Option (List KDTree)} {w : World}
    (h : Event.builderInvoked p1 g1 k1 s1 ∈ (ensureProduct prod pr br g kd sc w).2.2) :
    p1 = prod ∧ g1 = g ∧ k1 = kd ∧ s1 = sc := by
  unfold ensureProduct at h
  split at h <;> simp [Event.builderInvoked.injEq] at h
  tauto

theorem ensureProduct_world_preserves {w : World} {p : String} (prod pr br : String)
    (g : GridGeometry) (kd : Option KDTree) (sc : Option (List KDTree))
    (h : w.pathExists p = true) :
    ((ensureProduct prod pr br g kd sc w).2.1).pathExists p = true := by
  unfold ensureProduct
  split
  · exact h
  · exact World.pathExists_write_mono _ _ (World.pathExists_write_mono _ _ h)

/-! ## Lemmas: the per-scan save loop -/

theorem saveScanTrees_trace (d : String) :
    ∀ (l : List (Nat × KDTree)) (w : World),
      (saveScanTrees d l w).2 =
        l.map (fun p => Event.saveIndex (pyJoin d (pad 2 p.1 ++ ".kdtree")))
  | [], _ => rfl
  | (i, t) :: rest, w => by
    simp only [saveScanTrees, List.map_cons]
    rw [saveScanTrees_trace d rest]

theorem saveScanTrees_world_files (d : String) :
    ∀ (l : List (Nat × KDTree)) (w : World),
      (saveScanTrees d l w).1.files =
        (l.map (fun p =>
          (pyJoin d (pad 2 p.1 ++ ".kdtree"), FileData.kdtreeData p.2))).reverse
          ++ w.files
  | [], w => by simp [saveScanTrees]
  | (i, t) :: rest, w => by
    simp only [saveScanTrees, List.map_cons, List.reverse_cons]
    rw [saveScanTrees_world_files d rest]
    simp [KDTree.save, World.write]

theorem saveScanTrees_dirs (d : String) :
    ∀ (l : List (Nat × KDTree)) (w : World),
      (saveScanTrees d l w).1.dirs = w.dirs
  | [], _ => rfl
  | (i, t) :: rest, w => by
    simp only [saveScanTrees]
    rw [saveScanTrees_dirs d rest]
    rfl

theorem enum_range_map {α : Type} (f : Nat → α) (n : Nat) :
    ((List.range n).map f).enum = (List.range n).map (fun i => (i, f i)) := by
  rw [List.enum_eq_zip_range, List.length_map, List.length_range]
  have h := List.zip_map' id f (List.range n)
  simpa using h

/-! ## Lemmas: the overlap-strategy dispatch -/

theorem resolveOverlap_ok_facts {s : String} {ktp : Option String} {kt : Option KDTree}
    {skt : Option (List KDTree)} {sw : SwathGeometry} {gg : GridGeometry}
    {r c : Rat} {w : World} {res : OverlapResult}
    (h : resolveOverlap s ktp kt skt sw gg r c w = .ok res) :
    res.swath_geometry = (if s = "remove_105_128" then clip_tails sw else sw)
    ∧ (∀ e ∈ res.trace, isIndexEvent e = true)
    ∧ countWholeBuilds res.trace ≤ 1
    ∧ countScanBuilds res.trace ≤ 1 := by
  unfold resolveOverlap at h
  by_cases h1 : s = "checkerboard"
  · rw [if_pos h1] at h
    subst h1
    rw [if_neg (show ¬("checkerboard" = "remove_105_128") by decide)]
    rcases ktp with _ | p <;> dsimp only at h
    · injection h with h
      subst h
      refine ⟨rfl, ?_, ?_, ?_⟩
      · intro e he
        simp only [List.mem_singleton] at he
        subst he
        rfl
      · simp [countWholeBuilds, List.countP_cons, List.countP_nil]
      · simp [countScanBuilds, List.countP_cons, List.countP_nil]
    · by_cases hp : w.pathExists p = true
      · rw [if_pos hp] at h
        injection h with h
        subst h
        refine ⟨rfl, ?_, ?_, ?_⟩
        · intro e he
          simp only [List.mem_singleton] at he
          subst he
          rfl
        · simp [countWholeBuilds, List.countP_cons, List.countP_nil]
        · simp [countScanBuilds, List.countP_cons, List.countP_nil]
      · rw [if_neg hp] at h
        injection h with h
        subst h
        refine ⟨rfl, ?_, ?_, ?_⟩
        · intro e he
          simp only [List.mem_cons, List.mem_singleton, List.not_mem_nil, or_false] at he
          rcases he with he | he <;> (subst he; rfl)
        · simp [countWholeBuilds, List.countP_cons, List.countP_nil]
        · simp [countScanBuilds, List.countP_cons, List.countP_nil]
  · rw [if_neg h1] at h
    by_cases h2 : s = "scan_by_scan"
    · rw [if_pos h2] at h
      subst h2
      rw [if_neg (show ¬("scan_by_scan" = "remove_105_128") by decide)]
      rcases skt with _ | ts <;> dsimp only at h
      · rcases ktp with _ | d <;> dsimp only at h
        · injection h with h
          subst h
          refine ⟨rfl, ?_, ?_, ?_⟩
          · intro e he
            simp only [List.mem_singleton] at he
            subst he
            rfl
          · simp [countWholeBuilds, List.countP_cons, List.countP_nil]
          · simp [countScanBuilds, List.countP_cons, List.countP_nil]
        · by_cases hd : w.pathExists d = true
          · rw [if_pos hd] at h
            injection h with h
            subst h
            refine ⟨rfl, ?_, ?_, ?_⟩
            · intro e he
              rcases List.mem_map.mp he with ⟨nm, _, hnm⟩
              rw [← hnm]
              rfl
            · have hz : countWholeBuilds
                  ((pySorted (rawGlob w (pyJoin d "*.kdtree"))).map Event.loadIndex) = 0 :=
                List.countP_eq_zero.mpr (by
                  intro a ha
                  rcases List.mem_map.mp ha with ⟨nm, _, hnm⟩
                  rw [← hnm]
                  simp)
              rw [countWholeBuilds] at hz
              rw [countWholeBuilds, hz]
              omega
            · have hz : countScanBuilds
                  ((pySorted (rawGlob w (pyJoin d "*.kdtree"))).map Event.loadIndex) = 0 :=
                List.countP_eq_zero.mpr (by
                  intro a ha
                  rcases List.mem_map.mp ha with ⟨nm, _, hnm⟩
                  rw [← hnm]
                  simp)
              rw [countScanBuilds] at hz
              rw [countScanBuilds, hz]
              omega
          · rw [if_neg hd] at h
            injection h with h
            subst h
            refine ⟨rfl, ?_, ?_, ?_⟩
            · intro e he
              simp only [List.mem_cons] at he
              rcases he with he | he | he
              · subst he
                rfl
              · subst he
                rfl
              · rw [saveScanTrees_trace] at he
                rcases List.mem_map.mp he with ⟨pr, _, hpr⟩
                rw [← hpr]
                rfl
            · simp only [countWholeBuilds, List.countP_cons]
              rw [saveScanTrees_trace]
              have hz2 : ∀ (l : List (Nat × KDTree)),
                  (l.map (fun p => Event.saveIndex (pyJoin d (pad 2 p.1 ++ ".kdtree")))).countP
                    (fun e => match e with | .buildWholeIndex _ _ _ => true | _ => false) = 0 :=
                fun l => List.countP_eq_zero.mpr (by
                  intro a ha
                  rcases List.mem_map.mp ha with ⟨pr, _, hpr⟩
                  rw [← hpr]
                  simp)
              rw [hz2]
              simp
            · simp only [countScanBuilds, List.countP_cons]
              rw [saveScanTrees_trace]
              have hz2 : ∀ (l : List (Nat × KDTree)),
                  (l.map (fun p => Event.saveIndex (pyJoin d (pad 2 p.1 ++ ".kdtree")))).countP
                    (fun e => match e with | .buildScanIndices _ => true | _ => false) = 0 :=
                fun l => List.countP_eq_zero.mpr (by
                  intro a ha
                  rcases List.mem_map.mp ha with ⟨pr, _, hpr⟩
                  rw [← hpr]
                  simp)
              rw [hz2]
              simp
      · injection h with h
        subst h
        refine ⟨rfl, ?_, ?_, ?_⟩
        · intro e he
          simp at he
        · simp [countWholeBuilds, List.countP_nil]
        · simp [countScanBuilds, List.countP_nil]
    · rw [if_neg h2] at h
      by_cases h3 : s = "remove_105_128"
      · rw [if_pos h3] at h
        subst h3
        rw [if_pos rfl]
        rcases ktp with _ | p <;> dsimp only at h
        · injection h with h
          subst h
          refine ⟨rfl, ?_, ?_, ?_⟩
          · intro e he
            simp only [List.mem_singleton] at he
            subst he
            rfl
          · simp [countWholeBuilds, List.countP_cons, List.countP_nil]
          · simp [countScanBuilds, List.countP_cons, List.countP_nil]
        · by_cases hp : w.pathExists p = true
          · rw [if_pos hp] at h
            injection h with h
            subst h
            refine ⟨rfl, ?_, ?_, ?_⟩
            · intro e he
              simp only [List.mem_singleton] at he
              subst he
              rfl
            · simp [countWholeBuilds, List.countP_cons, List.countP_nil]
            · simp [countScanBuilds, List.countP_cons, List.countP_nil]
          · rw [if_neg hp] at h
            injection h with h
            subst h
            refine ⟨rfl, ?_, ?_, ?_⟩
            · intro e he
              simp only [List.mem_cons, List.mem_singleton, List.not_mem_nil,
                or_false] at he
              rcases he with he | he <;> (subst he; rfl)
            · simp [countWholeBuilds, List.countP_cons, List.countP_nil]
            · simp [countScanBuilds, List.countP_cons, List.countP_nil]
      · rw [if_neg h3] at h
        exact Except.noConfusion h

theorem resolveGriddedGeometry_error_shape {g : Option GridGeometry} {p : String}
    {sw : SwathGeometry} {cm cd : Rat} {e : PyExc}
    (h : resolveGriddedGeometry g p sw cm cd = .error e) :
    g = none ∧ p ≠ "local_UTM" ∧ p ≠ "global_geographic" ∧
      e = .ValueError ("unrecognized projection system: " ++ p) := by
  unfold resolveGriddedGeometry at h
  rcases g with _ | g0 <;> dsimp only at h
  · by_cases h1 : p = "local_UTM"
    · rw [if_pos h1] at h
      exact Except.noConfusion h
    · rw [if_neg h1] at h
      by_cases h2 : p = "global_geographic"
      · rw [if_pos h2] at h
        exact Except.noConfusion h
      · rw [if_neg h2] at h
        injection h with h
        exact ⟨rfl, h1, h2, h.symm⟩
  · exact Except.noConfusion h

theorem resolveOverlap_invalid {s : String} (h1 : s ≠ "checkerboard")
    (h2 : s ≠ "scan_by_scan") (h3 : s ≠ "remove_105_128")
    (ktp : Option String) (kt : Option KDTree) (skt : Option (List KDTree))
    (sw : SwathGeometry) (gg : GridGeometry) (r c : Rat) (w : World) :
    resolveOverlap s ktp kt skt sw gg r c w =
      .error (.ValueError ("unrecognized overlap strategy: " ++ s)) := by
  unfold resolveOverlap
  rw [if_neg h1, if_neg h2, if_neg h3]

theorem resolveOverlap_valid_ok {s : String}
    (hs : s = "checkerboard" ∨ s = "scan_by_scan" ∨ s = "remove_105_128")
    (ktp : Option String) (kt : Option KDTree) (skt : Option (List KDTree))
    (sw : SwathGeometry) (gg : GridGeometry) (r c : Rat) (w : World) :
    ∃ res, resolveOverlap s ktp kt skt sw gg r c w = .ok res := by
  unfold resolveOverlap
  rcases hs with hs | hs | hs <;> subst hs
  · rw [if_pos rfl]
    rcases ktp with _ | p <;> dsimp only
    · exact ⟨_, rfl⟩
    · by_cases hp : w.pathExists p = true
      · rw [if_pos hp]
        exact ⟨_, rfl⟩
      · rw [if_neg hp]
        exact ⟨_, rfl⟩
  · rw [if_neg (by decide), if_pos rfl]
    rcases skt with _ | ts <;> dsimp only
    · rcases ktp with _ | d <;> dsimp only
      · exact ⟨_, rfl⟩
      · by_cases hd : w.pathExists d = true
        · rw [if_pos hd]
          exact ⟨_, rfl⟩
        · rw [if_neg hd]
          exact ⟨_, rfl⟩
    · exact ⟨_, rfl⟩
  · rw [if_neg (by decide), if_neg (by decide), if_pos rfl]
    rcases ktp with _ | p <;> dsimp only
    · exact ⟨_, rfl⟩
    · by_cases hp : w.pathExists p = true
      · rw [if_pos hp]
        exact ⟨_, rfl⟩
      · rw [if_neg hp]
        exact ⟨_, rfl⟩

theorem resolveOverlap_error_shape {s : String} {ktp : Option String} {kt : Option KDTree}
    {skt : Option (List KDTree)} {sw : SwathGeometry} {gg : GridGeometry}
    {r c : Rat} {w : World} {e : PyExc}
    (h : resolveOverlap s ktp kt skt sw gg r c w = .error e) :
    e = .ValueError ("unrecognized overlap strategy: " ++ s) := by
  by_cases h1 : s = "checkerboard"
  · obtain ⟨res, hres⟩ := resolveOverlap_valid_ok (Or.inl h1) ktp kt skt sw gg r c w
    rw [hres] at h
    exact Except.noConfusion h
  by_cases h2 : s = "scan_by_scan"
  · obtain ⟨res, hres⟩ := resolveOverlap_valid_ok (Or.inr (Or.inl h2)) ktp kt skt sw gg r c w
    rw [hres] at h
    exact Except.noConfusion h
  by_cases h3 : s = "remove_105_128"
  · obtain ⟨res, hres⟩ := resolveOverlap_valid_ok (Or.inr (Or.inr h3)) ktp kt skt sw gg r c w
    rw [hres] at h
    exact Except.noConfusion h
  rw [resolveOverlap_invalid h1 h2 h3] at h
  injection h with h
  exact h.symm

/-! ## Lemmas: the config wrapper and the pipeline body -/

theorem configInit_error_domain {f : String} {doc : RunConfigDoc} {gr : GranuleMeta}
    {e : PyExc} (h : L2GL2TRADLSTEConfig_init f doc gr = .error e) :
    isECOSTRESSExitCodeException e = true := by
  unfold L2GL2TRADLSTEConfig_init at h
  cases hb : configInit_body f doc gr with
  | ok c =>
    rw [hb] at h
    exact Except.noConfusion h
  | error e' =>
    rw [hb] at h
    cases e' <;> simp [isECOSTRESSExitCodeException] at h <;> rw [← h] <;> rfl

theorem pipelineBody_err_init {a : RunArgs} {w : World} {e : PyExc}
    (h : L2GL2TRADLSTEConfig_init a.runconfig_filename a.doc a.granule = .error e) :
    pipelineBody a w = (.error e, w, []) := by
  unfold pipelineBody
  rw [h]

theorem pipelineBody_err_gg {a : RunArgs} {w : World} {cfg : ParsedConfig} {e : PyExc}
    (hcfg : L2GL2TRADLSTEConfig_init a.runconfig_filename a.doc a.granule = .ok cfg)
    (hgg : resolveGriddedGeometry a.gridded_geometry a.projection_system
      a.granule.geometry a.cell_size_meters a.cell_size_degrees = .error e) :
    pipelineBody a w = (.error e, w, []) := by
  unfold pipelineBody
  rw [hcfg]
  dsimp only
  rw [hgg]

theorem pipelineBody_err_ov {a : RunArgs} {w : World} {cfg : ParsedConfig}
    {gg0 : GridGeometry} {e : PyExc}
    (hcfg : L2GL2TRADLSTEConfig_init a.runconfig_filename a.doc a.granule = .ok cfg)
    (hgg : resolveGriddedGeometry a.gridded_geometry a.projection_system
      a.granule.geometry a.cell_size_meters a.cell_size_degrees = .ok gg0)
    (hov : resolveOverlap a.overlap_strategy (effectiveKDTreePath a.kd_tree_path cfg)
      a.kd_tree a.scan_kd_trees a.granule.geometry gg0
      a.search_radius_meters a.cell_size_degrees w = .error e) :
    pipelineBody a w = (.error e, w, []) := by
  unfold pipelineBody
  rw [hcfg]
  dsimp only
  rw [hgg]
  dsimp only
  rw [hov]

theorem pipelineBody_ok_decomp {a : RunArgs} {w : World} {cfg : ParsedConfig}
    {gg0 : GridGeometry} {r : OverlapResult}
    (hcfg : L2GL2TRADLSTEConfig_init a.runconfig_filename a.doc a.granule = .ok cfg)
    (hgg : resolveGriddedGeometry a.gridded_geometry a.projection_system
      a.granule.geometry a.cell_size_meters a.cell_size_degrees = .ok gg0)
    (hov : resolveOverlap a.overlap_strategy (effectiveKDTreePath a.kd_tree_path cfg)
      a.kd_tree a.scan_kd_trees a.granule.geometry gg0
      a.search_radius_meters a.cell_size_degrees w = .ok r) :
    pipelineBody a w =
      (let gridded2 := r.swath_geometry.geographic a.cell_size_degrees
       let s1 := ensureProduct "L1CG_RAD" cfg.L1CG_RAD_filename
         (browseName cfg.L1CG_RAD_filename) gridded2 r.kd_tree r.scan_kd_trees r.world
       let t1 := if a.process_tiles then s1.2.2 ++ [.tiled "L1CG_RAD"] else s1.2.2
       let s2 := ensureProduct "L2G_LSTE" cfg.L2G_LSTE_filename
         (browseName cfg.L2G_LSTE_filename) gridded2 r.kd_tree r.scan_kd_trees s1.2.1
       let t2 := if a.process_tiles then s2.2.2 ++ [.tiled "L2G_LSTE"] else s2.2.2
       let s3 := ensureProduct "L2G_CLOUD" cfg.L2G_CLOUD_filename
         (browseName cfg.L2G_CLOUD_filename) gridded2 r.kd_tree r.scan_kd_trees s2.2.1
       (.ok (), s3.2.1, r.trace ++ t1 ++ t2 ++ s3.2.2)) := by
  unfold pipelineBody
  rw [hcfg]
  dsimp only
  rw [hgg]
  dsimp only
  rw [hov]

/-! ## Claim C1 — accepted overlap-strategy values -/

/-- C1 counterexample: the claim says `remove_edge_overlap` is one of the
accepted overlap-strategy values, but the source (line 618) spells the
tail-clipping strategy `remove_105_128`, so `remove_edge_overlap` is
rejected with the fatal `ValueError` of line 651. -/
theorem C1_remove_edge_overlap_rejected :
    resolveOverlap "remove_edge_overlap" none none none sampleSwath
      (GridGeometry.geographic sampleSwath 1) 100 1 emptyWorld =
      .error (.ValueError "unrecognized overlap strategy: remove_edge_overlap") := by
  decide

/-- C1 (amended): exactly `checkerboard`, `scan_by_scan` and `remove_105_128`
are accepted; any other `overlap_strategy` raises a fatal
`ValueError` during strategy dispatch, and in a run whose configuration
resolves, that error escapes the orchestrator before any spatial-index
load, save or build is performed (run-config parsing and granule opening do
occur first). -/
theorem C1_overlap_strategy_values (s : String)
    (h1 : s ≠ "checkerboard") (h2 : s ≠ "scan_by_scan") (h3 : s ≠ "remove_105_128") :
    (∀ (ktp : Option String) (kt : Option KDTree) (skt : Option (List KDTree))
        (sw : SwathGeometry) (gg : GridGeometry) (r c : Rat) (w : World),
        resolveOverlap s ktp kt skt sw gg r c w =
          .error (.ValueError ("unrecognized overlap strategy: " ++ s)))
    ∧ (∀ (t : String),
        (t = "checkerboard" ∨ t = "scan_by_scan" ∨ t = "remove_105_128") →
        ∀ (ktp : Option String) (kt : Option KDTree) (skt : Option (List KDTree))
          (sw : SwathGeometry) (gg : GridGeometry) (r c : Rat) (w : World),
          ∃ res, resolveOverlap t ktp kt skt sw gg r c w = .ok res)
    ∧ (∀ (a : RunArgs) (w : World) (cfg : ParsedConfig) (g0 : GridGeometry),
        a.overlap_strategy = s →
        L2GL2TRADLSTEConfig_init a.runconfig_filename a.doc a.granule = .ok cfg →
        resolveGriddedGeometry a.gridded_geometry a.projection_system
          a.granule.geometry a.cell_size_meters a.cell_size_degrees = .ok g0 →
        (L1_L2_RAD_LSTE_run a w).outcome =
            .error (.ValueError ("unrecognized overlap strategy: " ++ s))
          ∧ (L1_L2_RAD_LSTE_run a w).trace = []) := by
  refine ⟨fun ktp kt skt sw gg r c w => resolveOverlap_invalid h1 h2 h3 _ _ _ _ _ _ _ _,
    fun t ht ktp kt skt sw gg r c w => resolveOverlap_valid_ok ht _ _ _ _ _ _ _ _, ?_⟩
  intro a w cfg g0 hs hcfg hgg
  subst hs
  have hov := resolveOverlap_invalid h1 h2 h3
    (effectiveKDTreePath a.kd_tree_path cfg) a.kd_tree a.scan_kd_trees
    a.granule.geometry g0 a.search_radius_meters a.cell_size_degrees w
  have hb := pipelineBody_err_ov hcfg hgg hov
  unfold L1_L2_RAD_LSTE_run
  rw [hb]
  dsimp only
  rw [if_neg (by simp [isECOSTRESSExitCodeException])]
  exact ⟨rfl, rfl⟩

/-- C1 witness: instantiating the amended theorem at the strategy string
`"bogus"` on the sample run. -/
theorem C1_overlap_strategy_values_witness :
    (resolveOverlap "bogus" none none none sampleSwath
        (GridGeometry.geographic sampleSwath 1) 100 1 emptyWorld =
      .error (.ValueError ("unrecognized overlap strategy: " ++ "bogus")))
    ∧ ((L1_L2_RAD_LSTE_run { sampleArgs with overlap_strategy := "bogus" }
          emptyWorld).outcome =
        .error (.ValueError ("unrecognized overlap strategy: " ++ "bogus"))
      ∧ (L1_L2_RAD_LSTE_run { sampleArgs with overlap_strategy := "bogus" }
          emptyWorld).trace = []) := by
  have h := C1_overlap_strategy_values "bogus" (by decide) (by decide) (by decide)
  exact ⟨h.1 none none none sampleSwath (GridGeometry.geographic sampleSwath 1)
      100 1 emptyWorld,
    h.2.2 { sampleArgs with overlap_strategy := "bogus" } emptyWorld sampleCfg
      (GridGeometry.geographic sampleSwath CELL_SIZE_DEGREES) rfl (by decide) (by decide)⟩

/-! ## Claim C2 — projection modes and the geometry the stages use -/

/-- C2 counterexample: the claim says the recognized projection modes are
`local_projected` and `global_geographic`, but the source (line 544)
recognizes `local_UTM`, so `local_projected` raises the fatal `ValueError`
of line 549. -/
theorem C2_local_projected_rejected :
    resolveGriddedGeometry none "local_projected" sampleSwath 70 1 =
      .error (.ValueError "unrecognized projection system: local_projected") := by
  decide

/-- C2 (amended): when no explicit grid geometry is supplied the recognized
projection modes are exactly `local_UTM` (projected-meter lattice) and
`global_geographic` (geographic-degree lattice); any other
`projection_system` is a fatal `ValueError`.  Moreover the grid geometry the
three product stages actually receive is always the geographic lattice
re-derived (source line 653) from the post-strategy swath geometry and
`cell_size_degrees`, regardless of the configured projection mode. -/
theorem C2_projection_modes :
    (∀ (p : String) (sw : SwathGeometry) (cm cd : Rat),
        p ≠ "local_UTM" → p ≠ "global_geographic" →
        resolveGriddedGeometry none p sw cm cd =
          .error (.ValueError ("unrecognized projection system: " ++ p)))
    ∧ (∀ (sw : SwathGeometry) (cm cd : Rat),
        resolveGriddedGeometry none "local_UTM" sw cm cd = .ok (sw.UTM cm)
        ∧ resolveGriddedGeometry none "global_geographic" sw cm cd = .ok (sw.geographic cd))
    ∧ (∀ (a : RunArgs) (w : World) (prod : String) (g : GridGeometry)
        (kd : Option KDTree) (sc : Option (List KDTree)),
        Event.builderInvoked prod g kd sc ∈ (L1_L2_RAD_LSTE_run a w).trace →
        g = (if a.overlap_strategy = "remove_105_128" then
              clip_tails a.granule.geometry
            else a.granule.geometry).geographic a.cell_size_degrees) := by
  refine ⟨?_, ?_, ?_⟩
  · intro p sw cm cd hp1 hp2
    unfold resolveGriddedGeometry
    rw [if_neg hp1, if_neg hp2]
  · intro sw cm cd
    constructor
    · unfold resolveGriddedGeometry
      rw [if_pos rfl]
    · unfold resolveGriddedGeometry
      rw [if_neg (by decide), if_pos rfl]
  · intro a w prod g kd sc hmem
    cases hcfg : L2GL2TRADLSTEConfig_init a.runconfig_filename a.doc a.granule with
    | error e =>
      unfold L1_L2_RAD_LSTE_run at hmem
      rw [pipelineBody_err_init hcfg] at hmem
      dsimp only at hmem
      by_cases hd : isECOSTRESSExitCodeException e = true
      · rw [if_pos hd] at hmem
        simp at hmem
      · rw [if_neg hd] at hmem
        simp at hmem
    | ok cfg =>
      cases hgg : resolveGriddedGeometry a.gridded_geometry a.projection_system
          a.granule.geometry a.cell_size_meters a.cell_size_degrees with
      | error e =>
        unfold L1_L2_RAD_LSTE_run at hmem
        rw [pipelineBody_err_gg hcfg hgg] at hmem
        dsimp only at hmem
        by_cases hd : isECOSTRESSExitCodeException e = true
        · rw [if_pos hd] at hmem
          simp at hmem
        · rw [if_neg hd] at hmem
          simp at hmem
      | ok gg0 =>
        cases hov : resolveOverlap a.overlap_strategy
            (effectiveKDTreePath a.kd_tree_path cfg) a.kd_tree a.scan_kd_trees
            a.granule.geometry gg0 a.search_radius_meters a.cell_size_degrees w with
        | error e =>
          unfold L1_L2_RAD_LSTE_run at hmem
          rw [pipelineBody_err_ov hcfg hgg hov] at hmem
          dsimp only at hmem
          by_cases hd : isECOSTRESSExitCodeException e = true
          · rw [if_pos hd] at hmem
            simp at hmem
          · rw [if_neg hd] at hmem
            simp at hmem
        | ok r =>
          have hfacts := resolveOverlap_ok_facts hov
          unfold L1_L2_RAD_LSTE_run at hmem
          rw [pipelineBody_ok_decomp hcfg hgg hov] at hmem
          dsimp only at hmem
          rw [← hfacts.1]
          simp only [List.mem_append] at hmem
          rcases hmem with ((hmem | hmem) | hmem) | hmem
          · have := hfacts.2.1 _ hmem
            simp [isIndexEvent] at this
          · have hb : Event.builderInvoked prod g kd sc ∈
                (ensureProduct "L1CG_RAD" cfg.L1CG_RAD_filename
                  (browseName cfg.L1CG_RAD_filename)
                  (r.swath_geometry.geographic a.cell_size_degrees)
                  r.kd_tree r.scan_kd_trees r.world).2.2 := by
              by_cases ht : a.process_tiles = true
              · rw [if_pos ht] at hmem
                simp only [List.mem_append, List.mem_singleton] at hmem
                rcases hmem with hmem | hmem
                · exact hmem
                · exact absurd hmem (by simp)
              · rw [if_neg ht] at hmem
                exact hmem
            exact (ensureProduct_builder_mem hb).2.1
          · have hb : Event.builderInvoked prod g kd sc ∈
                (ensureProduct "L2G_LSTE" cfg.L2G_LSTE_filename
                  (browseName cfg.L2G_LSTE_filename)
                  (r.swath_geometry.geographic a.cell_size_degrees)
                  r.kd_tree r.scan_kd_trees
                  (ensureProduct "L1CG_RAD" cfg.L1CG_RAD_filename
                    (browseName cfg.L1CG_RAD_filename)
                    (r.swath_geometry.geographic a.cell_size_degrees)
                    r.kd_tree r.scan_kd_trees r.world).2.1).2.2 := by
              by_cases ht : a.process_tiles = true
              · rw [if_pos ht] at hmem
                simp only [List.mem_append, List.mem_singleton] at hmem
                rcases hmem with hmem | hmem
                · exact hmem
                · exact absurd hmem (by simp)
              · rw [if_neg ht] at hmem
                exact hmem
            exact (ensureProduct_builder_mem hb).2.1
          · exact (ensureProduct_builder_mem hmem).2.1

/-- C2 witness: instantiating the amended theorem at `local_projected` and at
a concrete builder invocation of the sample run. -/
theorem C2_projection_modes_witness :
    (resolveGriddedGeometry none "local_projected" sampleSwath 70 1 =
      .error (.ValueError ("unrecognized projection system: " ++ "local_projected")))
    ∧ (GridGeometry.geographic sampleSwath CELL_SIZE_DEGREES =
        (if sampleArgs.overlap_strategy = "remove_105_128" then
          clip_tails sampleArgs.granule.geometry
        else sampleArgs.granule.geometry).geographic sampleArgs.cell_size_degrees) := by
  have h := C2_projection_modes
  refine ⟨h.1 "local_projected" sampleSwath 70 1 (by decide) (by decide), ?_⟩
  exact h.2.2 sampleArgs emptyWorld "L1CG_RAD"
    (GridGeometry.geographic sampleSwath CELL_SIZE_DEGREES)
    (some (KDTree.whole sampleSwath
      (GridGeometry.geographic sampleSwath CELL_SIZE_DEGREES) SEARCH_RADIUS_METERS))
    none (by decide)

/-! ## Counting helpers for stage traces -/

theorem countWholeBuilds_append (l1 l2 : List Event) :
    countWholeBuilds (l1 ++ l2) = countWholeBuilds l1 + countWholeBuilds l2 :=
  List.countP_append _ _ _

theorem countScanBuilds_append (l1 l2 : List Event) :
    countScanBuilds (l1 ++ l2) = countScanBuilds l1 + countScanBuilds l2 :=
  List.countP_append _ _ _

theorem countSaves_append (l1 l2 : List Event) :
    countSaves (l1 ++ l2) = countSaves l1 + countSaves l2 :=
  List.countP_append _ _ _

theorem countWholeBuilds_eq_zero {l : List Event} (h : ∀ e ∈ l, isIndexEvent e = false) :
    countWholeBuilds l = 0 :=
  List.countP_eq_zero.mpr (by
    intro a ha
    have := h a ha
    cases a <;> simp_all [isIndexEvent])

theorem countScanBuilds_eq_zero {l : List Event} (h : ∀ e ∈ l, isIndexEvent e = false) :
    countScanBuilds l = 0 :=
  List.countP_eq_zero.mpr (by
    intro a ha
    have := h a ha
    cases a <;> simp_all [isIndexEvent])

theorem countSaves_eq_zero {l : List Event} (h : ∀ e ∈ l, isIndexEvent e = false) :
    countSaves l = 0 :=
  List.countP_eq_zero.mpr (by
    intro a ha
    have := h a ha
    cases a <;> simp_all [isIndexEvent])

/-- Every event of a stage trace (optionally followed by a tiling event) is a
stage event, hence not an index event. -/
theorem stageChunk_no_index (cond : Bool) (l : List Event) (nm : String)
    (h : ∀ e ∈ l, isStageEvent e = true) :
    ∀ e ∈ (if cond then l ++ [Event.tiled nm] else l), isIndexEvent e = false := by
  intro e he
  cases cond with
  | false =>
    rw [if_neg (by simp)] at he
    exact stage_not_index (h e he)
  | true =>
    rw [if_pos rfl] at he
    rcases List.mem_append.mp he with he | he
    · exact stage_not_index (h e he)
    · simp only [List.mem_singleton] at he
      subst he
      rfl

/-! ## Claim C3 — behavior when no spatial-index path is supplied -/

/-- C3 counterexample: in a run with `kd_tree_path = None` the index is
persisted anyway (to a derived default path), contradicting "never persisted
to durable storage". -/
theorem C3_no_path_still_persisted :
    sampleArgs.kd_tree_path = none
    ∧ Event.saveIndex sampleKDTreePath ∈ (L1_L2_RAD_LSTE_run sampleArgs emptyWorld).trace
    ∧ (L1_L2_RAD_LSTE_run sampleArgs emptyWorld).world.pathExists sampleKDTreePath = true := by
  refine ⟨rfl, by decide, by decide⟩

/-- C3 (amended): when no `kd_tree_path` is supplied, the checkerboard run
derives the default cache path `working_directory/<granule_ID>.kdtree`; if a
file exists there the index is loaded from it (no build, no save), otherwise
the index is rebuilt and persisted at that derived path. -/
theorem C3_default_index_path (a : RunArgs) (w : World) (cfg : ParsedConfig)
    (g0 : GridGeometry)
    (hktp : a.kd_tree_path = none)
    (hstrat : a.overlap_strategy = "checkerboard")
    (hcfg : L2GL2TRADLSTEConfig_init a.runconfig_filename a.doc a.granule = .ok cfg)
    (hgg : resolveGriddedGeometry a.gridded_geometry a.projection_system
      a.granule.geometry a.cell_size_meters a.cell_size_degrees = .ok g0) :
    (w.pathExists (pyJoin cfg.working_directory (cfg.granule_ID ++ ".kdtree")) = true →
      Event.loadIndex (pyJoin cfg.working_directory (cfg.granule_ID ++ ".kdtree"))
          ∈ (L1_L2_RAD_LSTE_run a w).trace
        ∧ countWholeBuilds (L1_L2_RAD_LSTE_run a w).trace = 0
        ∧ countSaves (L1_L2_RAD_LSTE_run a w).trace = 0)
    ∧ (w.pathExists (pyJoin cfg.working_directory (cfg.granule_ID ++ ".kdtree")) = false →
      Event.saveIndex (pyJoin cfg.working_directory (cfg.granule_ID ++ ".kdtree"))
          ∈ (L1_L2_RAD_LSTE_run a w).trace
        ∧ (L1_L2_RAD_LSTE_run a w).world.pathExists
            (pyJoin cfg.working_directory (cfg.granule_ID ++ ".kdtree")) = true) := by
  have hek : effectiveKDTreePath a.kd_tree_path cfg =
      some (pyJoin cfg.working_directory (cfg.granule_ID ++ ".kdtree")) := by
    unfold effectiveKDTreePath
    rw [hktp]
  constructor
  · intro hex
    have hov : resolveOverlap a.overlap_strategy (effectiveKDTreePath a.kd_tree_path cfg)
        a.kd_tree a.scan_kd_trees a.granule.geometry g0
        a.search_radius_meters a.cell_size_degrees w =
        .ok { kd_tree := some (KDTree.load w
                (pyJoin cfg.working_directory (cfg.granule_ID ++ ".kdtree")))
              scan_kd_trees := a.scan_kd_trees
              swath_geometry := a.granule.geometry
              kd_tree_path := some (pyJoin cfg.working_directory (cfg.granule_ID ++ ".kdtree"))
              world := w
              trace := [Event.loadIndex
                (pyJoin cfg.working_directory (cfg.granule_ID ++ ".kdtree"))] } := by
      rw [hstrat, hek]
      unfold resolveOverlap
      rw [if_pos rfl]
      dsimp only
      rw [if_pos hex]
    unfold L1_L2_RAD_LSTE_run
    rw [pipelineBody_ok_decomp hcfg hgg hov]
    dsimp only
    refine ⟨by simp, ?_, ?_⟩
    · rw [countWholeBuilds_append, countWholeBuilds_append, countWholeBuilds_append,
        countWholeBuilds_eq_zero (stageChunk_no_index _ _ _
          (ensureProduct_trace_stage _ _ _ _ _ _ _)),
        countWholeBuilds_eq_zero (stageChunk_no_index _ _ _
          (ensureProduct_trace_stage _ _ _ _ _ _ _)),
        countWholeBuilds_eq_zero (fun e he =>
          stage_not_index (ensureProduct_trace_stage _ _ _ _ _ _ _ e he))]
      simp [countWholeBuilds, List.countP_cons, List.countP_nil]
    · rw [countSaves_append, countSaves_append, countSaves_append,
        countSaves_eq_zero (stageChunk_no_index _ _ _
          (ensureProduct_trace_stage _ _ _ _ _ _ _)),
        countSaves_eq_zero (stageChunk_no_index _ _ _
          (ensureProduct_trace_stage _ _ _ _ _ _ _)),
        countSaves_eq_zero (fun e he =>
          stage_not_index (ensureProduct_trace_stage _ _ _ _ _ _ _ e he))]
      simp [countSaves, List.countP_cons, List.countP_nil]
  · intro hex
    have hov : resolveOverlap a.overlap_strategy (effectiveKDTreePath a.kd_tree_path cfg)
        a.kd_tree a.scan_kd_trees a.granule.geometry g0
        a.search_radius_meters a.cell_size_degrees w =
        .ok { kd_tree := some (KDTree.whole a.granule.geometry g0 a.search_radius_meters)
              scan_kd_trees := a.scan_kd_trees
              swath_geometry := a.granule.geometry
              kd_tree_path := some (pyJoin cfg.working_directory (cfg.granule_ID ++ ".kdtree"))
              world := (KDTree.whole a.granule.geometry g0 a.search_radius_meters).save w
                (pyJoin cfg.working_directory (cfg.granule_ID ++ ".kdtree"))
              trace := [Event.buildWholeIndex a.granule.geometry g0 a.search_radius_meters,
                Event.saveIndex
                  (pyJoin cfg.working_directory (cfg.granule_ID ++ ".kdtree"))] } := by
      rw [hstrat, hek]
      unfold resolveOverlap
      rw [if_pos rfl]
      dsimp only
      rw [if_neg (by rw [hex]; simp)]
    unfold L1_L2_RAD_LSTE_run
    rw [pipelineBody_ok_decomp hcfg hgg hov]
    dsimp only
    refine ⟨by simp, ?_⟩
    apply ensureProduct_world_preserves
    apply ensureProduct_world_preserves
    apply ensureProduct_world_preserves
    exact World.pathExists_write_self _ _ _

/-- C3 witness: the sample run with no supplied index path and an empty
filesystem persists the index at the derived default path. -/
theorem C3_default_index_path_witness :
    Event.saveIndex (pyJoin sampleCfg.working_directory (sampleCfg.granule_ID ++ ".kdtree"))
        ∈ (L1_L2_RAD_LSTE_run sampleArgs emptyWorld).trace
    ∧ (L1_L2_RAD_LSTE_run sampleArgs emptyWorld).world.pathExists
        (pyJoin sampleCfg.working_directory (sampleCfg.granule_ID ++ ".kdtree")) = true :=
  (C3_default_index_path sampleArgs emptyWorld sampleCfg
    (GridGeometry.geographic sampleSwath CELL_SIZE_DEGREES)
    rfl rfl (by decide) (by decide)).2 (by decide)

/-! ## Claim C4 — scan-by-scan cache-location dispatch -/

/-- C4 counterexample: with an existing but empty cache directory the
scan-by-scan branch loads an empty list of indices and performs no build and
no persistence (empty trace), rather than building one index per scan-line
as the claim states. -/
theorem C4_empty_dir_no_build :
    resolveOverlap "scan_by_scan" (some "cache") none none sampleSwath
      (GridGeometry.geographic sampleSwath 1) 100 1 c4World =
      .ok { kd_tree := none, scan_kd_trees := some []
            swath_geometry := sampleSwath, kd_tree_path := some "cache"
            world := c4World, trace := [] } := by
  decide

/-- C4 (amended): with a `cache_location` directory that exists, every
matching index file is loaded in lexical order (zero files when the
directory is empty — no build happens in that case); one index per scan-line
is built and persisted under two-digit zero-padded ordinal names, creating
the directory, only when the cache directory does not exist. -/
theorem C4_scan_cache_dispatch (d : String) (kt : Option KDTree) (sw : SwathGeometry)
    (gg : GridGeometry) (r c : Rat) (w : World) :
    (w.pathExists d = true →
      resolveOverlap "scan_by_scan" (some d) kt none sw gg r c w =
        .ok { kd_tree := kt
              scan_kd_trees :=
                some ((pySorted (rawGlob w (pyJoin d "*.kdtree"))).map (KDTree.load w))
              swath_geometry := sw, kd_tree_path := some d, world := w
              trace := (pySorted (rawGlob w (pyJoin d "*.kdtree"))).map Event.loadIndex })
    ∧ (w.pathExists d = false →
      ∃ res, resolveOverlap "scan_by_scan" (some d) kt none sw gg r c w = .ok res
        ∧ res.scan_kd_trees = some (generate_scan_kd_trees sw c)
        ∧ Event.buildScanIndices sw.scanLines ∈ res.trace
        ∧ res.world.dirs.contains d = true
        ∧ (∀ i, i < sw.scanLines →
            Event.saveIndex (pyJoin d (pad 2 i ++ ".kdtree")) ∈ res.trace
            ∧ res.world.pathExists (pyJoin d (pad 2 i ++ ".kdtree")) = true)) := by
  constructor
  · intro hex
    unfold resolveOverlap
    rw [if_neg (by decide), if_pos rfl]
    dsimp only
    rw [if_pos hex]
  · intro hex
    unfold resolveOverlap
    rw [if_neg (by decide), if_pos rfl]
    dsimp only
    rw [if_neg (by rw [hex]; simp)]
    refine ⟨_, rfl, rfl, ?_, ?_, ?_⟩
    · have hlen : (generate_scan_kd_trees sw c).length = sw.scanLines := by
        simp [generate_scan_kd_trees]
      dsimp only
      rw [hlen]
      exact List.mem_cons_self _ _
    · dsimp only
      rw [saveScanTrees_dirs]
      unfold World.makedirs
      split
      · assumption
      · simp
    · intro i hi
      constructor
      · dsimp only
        refine List.mem_cons_of_mem _ (List.mem_cons_of_mem _ ?_)
        rw [saveScanTrees_trace]
        unfold generate_scan_kd_trees
        rw [enum_range_map, List.map_map]
        exact List.mem_map.mpr ⟨i, List.mem_range.mpr hi, rfl⟩
      · dsimp only
        unfold World.pathExists
        apply Bool.or_eq_true_iff.mpr
        left
        apply List.any_eq_true.mpr
        refine ⟨(pyJoin d (pad 2 i ++ ".kdtree"),
          FileData.kdtreeData (KDTree.scan sw i c)), ?_, by simp⟩
        rw [saveScanTrees_world_files]
        apply List.mem_append.mpr
        left
        apply List.mem_reverse.mpr
        unfold generate_scan_kd_trees
        rw [enum_range_map, List.map_map]
        exact List.mem_map.mpr ⟨i, List.mem_range.mpr hi, rfl⟩

/-- C4 witness: the dispatch theorem instantiated at the empty existing
directory (load side) and at an absent directory over the empty filesystem
(build side). -/
theorem C4_scan_cache_dispatch_witness :
    (resolveOverlap "scan_by_scan" (some "cache") none none sampleSwath
        (GridGeometry.geographic sampleSwath 1) 100 1 c4World =
      .ok { kd_tree := none
            scan_kd_trees := some ((pySorted (rawGlob c4World
              (pyJoin "cache" "*.kdtree"))).map (KDTree.load c4World))
            swath_geometry := sampleSwath, kd_tree_path := some "cache"
            world := c4World
            trace := (pySorted (rawGlob c4World
              (pyJoin "cache" "*.kdtree"))).map Event.loadIndex })
    ∧ (∃ res, resolveOverlap "scan_by_scan" (some "cache") none none sampleSwath
          (GridGeometry.geographic sampleSwath 1) 100 1 emptyWorld = .ok res
        ∧ res.scan_kd_trees = some (generate_scan_kd_trees sampleSwath 1)
        ∧ Event.buildScanIndices sampleSwath.scanLines ∈ res.trace
        ∧ res.world.dirs.contains "cache" = true
        ∧ (∀ i, i < sampleSwath.scanLines →
            Event.saveIndex (pyJoin "cache" (pad 2 i ++ ".kdtree")) ∈ res.trace
            ∧ res.world.pathExists (pyJoin "cache" (pad 2 i ++ ".kdtree")) = true)) :=
  ⟨(C4_scan_cache_dispatch "cache" none sampleSwath
      (GridGeometry.geographic sampleSwath 1) 100 1 c4World).1 (by decide),
   (C4_scan_cache_dispatch "cache" none sampleSwath
      (GridGeometry.geographic sampleSwath 1) 100 1 emptyWorld).2 (by decide)⟩

/-! ## Claim C5 — product-stage idempotence -/

/-- C5: if a product's primary file and browse image both exist, the stage
opens the existing primary file and returns a handle without invoking the
builder, leaving the filesystem (hence both outputs) untouched; and running
any stage a second time after a first run never invokes the builder again
and leaves the first run's filesystem unchanged. -/
theorem C5_product_stage_idempotent :
    (∀ (prod primary browse : String) (g : GridGeometry) (kd : Option KDTree)
        (sc : Option (List KDTree)) (w : World),
      w.pathExists primary = true → w.pathExists browse = true →
      ensureProduct prod primary browse g kd sc w =
        (.openedFrom primary, w, [.openedExisting prod primary]))
    ∧ (∀ (prod primary browse : String) (g : GridGeometry) (kd : Option KDTree)
        (sc : Option (List KDTree)) (w : World),
      ensureProduct prod primary browse g kd sc
          (ensureProduct prod primary browse g kd sc w).2.1 =
        (.openedFrom primary,
         (ensureProduct prod primary browse g kd sc w).2.1,
         [.openedExisting prod primary])) := by
  have hmain : ∀ (prod primary browse : String) (g : GridGeometry) (kd : Option KDTree)
      (sc : Option (List KDTree)) (w : World),
      w.pathExists primary = true → w.pathExists browse = true →
      ensureProduct prod primary browse g kd sc w =
        (.openedFrom primary, w, [.openedExisting prod primary]) := by
    intro prod primary browse g kd sc w h1 h2
    unfold ensureProduct
    rw [if_pos (by rw [h1, h2]; rfl)]
  refine ⟨hmain, ?_⟩
  intro prod primary browse g kd sc w
  by_cases hb : (w.pathExists primary && w.pathExists browse) = true
  · have h1 : ensureProduct prod primary browse g kd sc w =
        (.openedFrom primary, w, [.openedExisting prod primary]) := by
      unfold ensureProduct
      rw [if_pos hb]
    rw [h1]
    unfold ensureProduct
    rw [if_pos hb]
  · have h1 : ensureProduct prod primary browse g kd sc w =
        (.builtNew primary,
         (w.write primary (.productData prod g kd sc)).write browse (.browseData prod),
         [.builderInvoked prod g kd sc, .wroteFile primary, .wroteBrowse browse]) := by
      unfold ensureProduct
      rw [if_neg hb]
    rw [h1]
    apply hmain
    · exact World.pathExists_write_mono _ _ (World.pathExists_write_self _ _ _)
    · exact World.pathExists_write_self _ _ _

/-- C5 witness: a stage whose two outputs already exist opens the existing
file and changes nothing. -/
theorem C5_product_stage_idempotent_witness :
    ensureProduct "L2G_LSTE" "out/p.h5" "out/p.png"
      (GridGeometry.geographic sampleSwath 1) none none c5World =
      (.openedFrom "out/p.h5", c5World, [.openedExisting "L2G_LSTE" "out/p.h5"]) :=
  C5_product_stage_idempotent.1 "L2G_LSTE" "out/p.h5" "out/p.png"
    (GridGeometry.geographic sampleSwath 1) none none c5World (by decide) (by decide)

/-! ## Shared helpers for the orchestration-order claims -/

theorem stageChunk_stage (cond : Bool) (l : List Event) (nm : String)
    (h : ∀ e ∈ l, isStageEvent e = true) :
    ∀ e ∈ (if cond then l ++ [Event.tiled nm] else l), isStageEvent e = true := by
  intro e he
  cases cond with
  | false =>
    rw [if_neg (by simp)] at he
    exact h e he
  | true =>
    rw [if_pos rfl] at he
    rcases List.mem_append.mp he with he | he
    · exact h e he
    · simp only [List.mem_singleton] at he
      subst he
      rfl

theorem stageChunk_marker (cond : Bool) (l : List Event) (nm : String) :
    (if cond then l ++ [Event.tiled nm] else l).filterMap stageMarker =
      l.filterMap stageMarker := by
  cases cond with
  | false => rw [if_neg (by simp)]
  | true =>
    rw [if_pos rfl, List.filterMap_append]
    simp [stageMarker]

theorem exitCodeOf_ne_success (e : PyExc) : exitCodeOf e ≠ SUCCESS_EXIT_CODE := by
  cases e <;> simp [exitCodeOf, SUCCESS_EXIT_CODE]

/-- In a run whose strategy dispatch resolved to `r`, every builder
invocation in the trace carries the stage geometry of source line 653 and
the resolved index pair `(r.kd_tree, r.scan_kd_trees)` unchanged. -/
theorem run_builder_payload {a : RunArgs} {w : World} {cfg : ParsedConfig}
    {gg0 : GridGeometry} {r : OverlapResult}
    (hcfg : L2GL2TRADLSTEConfig_init a.runconfig_filename a.doc a.granule = .ok cfg)
    (hgg : resolveGriddedGeometry a.gridded_geometry a.projection_system
      a.granule.geometry a.cell_size_meters a.cell_size_degrees = .ok gg0)
    (hov : resolveOverlap a.overlap_strategy (effectiveKDTreePath a.kd_tree_path cfg)
      a.kd_tree a.scan_kd_trees a.granule.geometry gg0
      a.search_radius_meters a.cell_size_degrees w = .ok r) :
    ∀ (p1 : String) (g1 : GridGeometry) (k1 : Option KDTree) (s1 : Option (List KDTree)),
      Event.builderInvoked p1 g1 k1 s1 ∈ (L1_L2_RAD_LSTE_run a w).trace →
      g1 = r.swath_geometry.geographic a.cell_size_degrees
        ∧ k1 = r.kd_tree ∧ s1 = r.scan_kd_trees := by
  intro p1 g1 k1 s1 hmem
  have hfacts := resolveOverlap_ok_facts hov
  unfold L1_L2_RAD_LSTE_run at hmem
  rw [pipelineBody_ok_decomp hcfg hgg hov] at hmem
  dsimp only at hmem
  simp only [List.mem_append] at hmem
  rcases hmem with ((hmem | hmem) | hmem) | hmem
  · have := hfacts.2.1 _ hmem
    simp [isIndexEvent] at this
  · have hb : Event.builderInvoked p1 g1 k1 s1 ∈
        (ensureProduct "L1CG_RAD" cfg.L1CG_RAD_filename
          (browseName cfg.L1CG_RAD_filename)
          (r.swath_geometry.geographic a.cell_size_degrees)
          r.kd_tree r.scan_kd_trees r.world).2.2 := by
      by_cases ht : a.process_tiles = true
      · rw [if_pos ht] at hmem
        simp only [List.mem_append, List.mem_singleton] at hmem
        rcases hmem with hmem | hmem
        · exact hmem
        · exact absurd hmem (by simp)
      · rw [if_neg ht] at hmem
        exact hmem
    exact (ensureProduct_builder_mem hb).2
  · have hb : Event.builderInvoked p1 g1 k1 s1 ∈
        (ensureProduct "L2G_LSTE" cfg.L2G_LSTE_filename
          (browseName cfg.L2G_LSTE_filename)
          (r.swath_geometry.geographic a.cell_size_degrees)
          r.kd_tree r.scan_kd_trees
          (ensureProduct "L1CG_RAD" cfg.L1CG_RAD_filename
            (browseName cfg.L1CG_RAD_filename)
            (r.swath_geometry.geographic a.cell_size_degrees)
            r.kd_tree r.scan_kd_trees r.world).2.1).2.2 := by
      by_cases ht : a.process_tiles = true
      · rw [if_pos ht] at hmem
        simp only [List.mem_append, List.mem_singleton] at hmem
        rcases hmem with hmem | hmem
        · exact hmem
        · exact absurd hmem (by simp)
      · rw [if_neg ht] at hmem
        exact hmem
    exact (ensureProduct_builder_mem hb).2
  · exact (ensureProduct_builder_mem hmem).2

/-! ## Claim C6 — one resolution, fixed stage order, index shared unmodified -/

/-- C6: in every successful run, all spatial-index work precedes all product
stage work, the stage-completion markers appear in the fixed order
radiance-gridded, LSTE-gridded, cloud-gridded, at most one whole-swath build
and at most one per-scan bulk build occur, and any two builder invocations
receive the same grid geometry and the same resolved index pair. -/
theorem C6_single_resolution_order (a : RunArgs) (w : World)
    (h : (L1_L2_RAD_LSTE_run a w).outcome = .ok SUCCESS_EXIT_CODE) :
    ∃ tI tS, (L1_L2_RAD_LSTE_run a w).trace = tI ++ tS
      ∧ (∀ e ∈ tI, isIndexEvent e = true)
      ∧ (∀ e ∈ tS, isStageEvent e = true)
      ∧ tS.filterMap stageMarker = ["L1CG_RAD", "L2G_LSTE", "L2G_CLOUD"]
      ∧ countWholeBuilds (L1_L2_RAD_LSTE_run a w).trace ≤ 1
      ∧ countScanBuilds (L1_L2_RAD_LSTE_run a w).trace ≤ 1
      ∧ (∀ p1 g1 k1 s1 p2 g2 k2 s2,
          Event.builderInvoked p1 g1 k1 s1 ∈ (L1_L2_RAD_LSTE_run a w).trace →
          Event.builderInvoked p2 g2 k2 s2 ∈ (L1_L2_RAD_LSTE_run a w).trace →
          g1 = g2 ∧ k1 = k2 ∧ s1 = s2) := by
  cases hcfg : L2GL2TRADLSTEConfig_init a.runconfig_filename a.doc a.granule with
  | error e =>
    unfold L1_L2_RAD_LSTE_run at h
    rw [pipelineBody_err_init hcfg] at h
    dsimp only at h
    by_cases hd : isECOSTRESSExitCodeException e = true
    · rw [if_pos hd] at h
      injection h with h
      exact absurd h (exitCodeOf_ne_success e)
    · rw [if_neg hd] at h
      exact Except.noConfusion h
  | ok cfg =>
    cases hgg : resolveGriddedGeometry a.gridded_geometry a.projection_system
        a.granule.geometry a.cell_size_meters a.cell_size_degrees with
    | error e =>
      unfold L1_L2_RAD_LSTE_run at h
      rw [pipelineBody_err_gg hcfg hgg] at h
      dsimp only at h
      by_cases hd : isECOSTRESSExitCodeException e = true
      · rw [if_pos hd] at h
        injection h with h
        exact absurd h (exitCodeOf_ne_success e)
      · rw [if_neg hd] at h
        exact Except.noConfusion h
    | ok gg0 =>
      cases hov : resolveOverlap a.overlap_strategy
          (effectiveKDTreePath a.kd_tree_path cfg) a.kd_tree a.scan_kd_trees
          a.granule.geometry gg0 a.search_radius_meters a.cell_size_degrees w with
      | error e =>
        unfold L1_L2_RAD_LSTE_run at h
        rw [pipelineBody_err_ov hcfg hgg hov] at h
        dsimp only at h
        by_cases hd : isECOSTRESSExitCodeException e = true
        · rw [if_pos hd] at h
          injection h with h
          exact absurd h (exitCodeOf_ne_success e)
        · rw [if_neg hd] at h
          exact Except.noConfusion h
      | ok r =>
        have hfacts := resolveOverlap_ok_facts hov
        have hpay := run_builder_payload hcfg hgg hov
        unfold L1_L2_RAD_LSTE_run
        rw [pipelineBody_ok_decomp hcfg hgg hov]
        dsimp only
        refine ⟨r.trace, _, by rw [List.append_assoc, List.append_assoc], hfacts.2.1,
          ?_, ?_, ?_, ?_, ?_⟩
        · intro e he
          simp only [List.mem_append] at he
          rcases he with he | he | he
          · exact stageChunk_stage _ _ _ (ensureProduct_trace_stage _ _ _ _ _ _ _) e he
          · exact stageChunk_stage _ _ _ (ensureProduct_trace_stage _ _ _ _ _ _ _) e he
          · exact ensureProduct_trace_stage _ _ _ _ _ _ _ e he
        · rw [List.filterMap_append, List.filterMap_append,
            stageChunk_marker, stageChunk_marker,
            ensureProduct_trace_marker, ensureProduct_trace_marker,
            ensureProduct_trace_marker]
          rfl
        · rw [countWholeBuilds_append, countWholeBuilds_append, countWholeBuilds_append,
            countWholeBuilds_eq_zero (stageChunk_no_index _ _ _
              (ensureProduct_trace_stage _ _ _ _ _ _ _)),
            countWholeBuilds_eq_zero (stageChunk_no_index _ _ _
              (ensureProduct_trace_stage _ _ _ _ _ _ _)),
            countWholeBuilds_eq_zero (fun e he =>
              stage_not_index (ensureProduct_trace_stage _ _ _ _ _ _ _ e he))]
          have := hfacts.2.2.1
          omega
        · rw [countScanBuilds_append, countScanBuilds_append, countScanBuilds_append,
            countScanBuilds_eq_zero (stageChunk_no_index _ _ _
              (ensureProduct_trace_stage _ _ _ _ _ _ _)),
            countScanBuilds_eq_zero (stageChunk_no_index _ _ _
              (ensureProduct_trace_stage _ _ _ _ _ _ _)),
            countScanBuilds_eq_zero (fun e he =>
              stage_not_index (ensureProduct_trace_stage _ _ _ _ _ _ _ e he))]
          have := hfacts.2.2.2
          omega
        · intro p1 g1 k1 s1 p2 g2 k2 s2 h1 h2
          have e1 := hpay p1 g1 k1 s1 (by
            unfold L1_L2_RAD_LSTE_run
            rw [pipelineBody_ok_decomp hcfg hgg hov]
            exact h1)
          have e2 := hpay p2 g2 k2 s2 (by
            unfold L1_L2_RAD_LSTE_run
            rw [pipelineBody_ok_decomp hcfg hgg hov]
            exact h2)
          exact ⟨e1.1.trans e2.1.symm, e1.2.1.trans e2.2.1.symm,
            e1.2.2.trans e2.2.2.symm⟩

/-- C6 witness: the order-and-sharing theorem instantiated on the successful
sample run. -/
theorem C6_single_resolution_order_witness :
    ∃ tI tS, (L1_L2_RAD_LSTE_run sampleArgs emptyWorld).trace = tI ++ tS
      ∧ (∀ e ∈ tI, isIndexEvent e = true)
      ∧ (∀ e ∈ tS, isStageEvent e = true)
      ∧ tS.filterMap stageMarker = ["L1CG_RAD", "L2G_LSTE", "L2G_CLOUD"]
      ∧ countWholeBuilds (L1_L2_RAD_LSTE_run sampleArgs emptyWorld).trace ≤ 1
      ∧ countScanBuilds (L1_L2_RAD_LSTE_run sampleArgs emptyWorld).trace ≤ 1
      ∧ (∀ p1 g1 k1 s1 p2 g2 k2 s2,
          Event.builderInvoked p1 g1 k1 s1
              ∈ (L1_L2_RAD_LSTE_run sampleArgs emptyWorld).trace →
          Event.builderInvoked p2 g2 k2 s2
              ∈ (L1_L2_RAD_LSTE_run sampleArgs emptyWorld).trace →
          g1 = g2 ∧ k1 = k2 ∧ s1 = s2) :=
  C6_single_resolution_order sampleArgs emptyWorld (by decide)

/-! ## Claim C7 — ocean-scene early exit -/

/-- C7: when the primary granule reports a land fraction of exactly zero
(and the run-config document itself parses), the run stops inside config
resolution with the `LandFilter` outcome: the returned exit code is the
land-filter code, no trace events occur (no spatial-index work, no product
stage), the filesystem is untouched, and that code differs from the success
code and from every other domain outcome. -/
theorem C7_ocean_early_exit (a : RunArgs) (w : World) (flds : RawFields)
    (hflds : parseRunConfigFields a.runconfig_filename a.doc = .ok flds)
    (hland : a.granule.land_percent = 0) :
    (L1_L2_RAD_LSTE_run a w).outcome =
        .ok (exitCodeOf (.LandFilter "skipping ocean scene with OverAllLandFraction value of 0"))
      ∧ (L1_L2_RAD_LSTE_run a w).trace = []
      ∧ (L1_L2_RAD_LSTE_run a w).world = w
      ∧ exitCodeOf (.LandFilter "skipping ocean scene with OverAllLandFraction value of 0")
          ≠ SUCCESS_EXIT_CODE
      ∧ (∀ e : PyExc, isECOSTRESSExitCodeException e = true →
          (∀ m, e ≠ .LandFilter m) →
          exitCodeOf (.LandFilter "skipping ocean scene with OverAllLandFraction value of 0")
            ≠ exitCodeOf e) := by
  have hbody : configInit_body a.runconfig_filename a.doc a.granule =
      .error (.LandFilter "skipping ocean scene with OverAllLandFraction value of 0") := by
    unfold configInit_body
    rw [hflds]
    dsimp only [Bind.bind, Except.bind]
    rw [hland]
    rfl
  have hinit : L2GL2TRADLSTEConfig_init a.runconfig_filename a.doc a.granule =
      .error (.LandFilter "skipping ocean scene with OverAllLandFraction value of 0") := by
    unfold L2GL2TRADLSTEConfig_init
    rw [hbody]
    rfl
  unfold L1_L2_RAD_LSTE_run
  rw [pipelineBody_err_init hinit]
  dsimp only
  rw [if_pos (by rfl)]
  refine ⟨rfl, rfl, rfl, by decide, ?_⟩
  intro e hdom hne
  cases e with
  | MissingRunConfigValue m => simp [exitCodeOf]
  | UnableToParseRunConfig m => simp [exitCodeOf]
  | LandFilter m => exact absurd rfl (hne m)
  | ValueError m => simp [isECOSTRESSExitCodeException] at hdom
  | TypeError m => simp [isECOSTRESSExitCodeException] at hdom
  | KeyError m => simp [isECOSTRESSExitCodeException] at hdom
  | IOError m => simp [isECOSTRESSExitCodeException] at hdom
  | IndexError m => simp [isECOSTRESSExitCodeException] at hdom

/-- C7 witness: the sample document with the all-ocean granule exits with
the land-filter code, an empty trace and an unchanged filesystem. -/
theorem C7_ocean_early_exit_witness :
    (L1_L2_RAD_LSTE_run { sampleArgs with granule := oceanGranule } emptyWorld).outcome =
        .ok (exitCodeOf (.LandFilter "skipping ocean scene with OverAllLandFraction value of 0"))
      ∧ (L1_L2_RAD_LSTE_run { sampleArgs with granule := oceanGranule } emptyWorld).trace = []
      ∧ (L1_L2_RAD_LSTE_run { sampleArgs with granule := oceanGranule } emptyWorld).world
          = emptyWorld :=
  ⟨(C7_ocean_early_exit { sampleArgs with granule := oceanGranule } emptyWorld
      sampleFields (by decide) rfl).1,
   (C7_ocean_early_exit { sampleArgs with granule := oceanGranule } emptyWorld
      sampleFields (by decide) rfl).2.1,
   (C7_ocean_early_exit { sampleArgs with granule := oceanGranule } emptyWorld
      sampleFields (by decide) rfl).2.2.1⟩

/-! ## Lemmas for the scan-by-scan cardinality claim -/

theorem makedirs_files (w : World) (d : String) : (w.makedirs d).files = w.files := by
  unfold World.makedirs
  split <;> rfl

theorem makedirs_dirs_contains (w : World) (d : String) :
    (w.makedirs d).dirs.contains d = true := by
  unfold World.makedirs
  split
  · assumption
  · simp

theorem pathExists_of_dirs {w : World} {d : String} (h : w.dirs.contains d = true) :
    w.pathExists d = true := by
  unfold World.pathExists
  rw [h]
  simp

theorem pyJoin_data (d x : String) :
    (pyJoin d x).data = (d ++ "/").data ++ x.data := by
  show (d ++ "/" ++ x).data = _
  rw [String.data_append]

theorem kdtreeName_inj {d : String} {i j : Nat} (hi : i ≤ 99) (hj : j ≤ 99)
    (h : pyJoin d (pad 2 i ++ ".kdtree") = pyJoin d (pad 2 j ++ ".kdtree")) : i = j := by
  have hd := congrArg String.data h
  rw [pyJoin_data, pyJoin_data] at hd
  have h1 := List.append_cancel_left hd
  rw [String.data_append, String.data_append, pad2_data hi, pad2_data hj] at h1
  simp only [List.cons_append, List.nil_append, List.cons.injEq] at h1
  have e1 := digitChar_inj (by omega) (by omega) h1.1
  have e2 := digitChar_inj (by omega) (by omega) h1.2.1
  omega

theorem find?_key_unique {l : List (String × FileData)} {k : String} {v : FileData}
    (hmem : (k, v) ∈ l) (huniq : ∀ q ∈ l, q.1 = k → q.2 = v) :
    l.find? (fun e => e.1 == k) = some (k, v) := by
  have hsome : (l.find? (fun e => e.1 == k)).isSome = true :=
    List.find?_isSome.mpr ⟨(k, v), hmem, by simp⟩
  obtain ⟨x, hx⟩ := Option.isSome_iff_exists.mp hsome
  have hxmem := List.mem_of_find?_eq_some hx
  have hpx : x.1 = k := by simpa using List.find?_some hx
  have hv : x.2 = v := huniq x hxmem hpx
  have hxkv : x = (k, v) := Prod.ext (by rw [hpx]) (by rw [hv])
  rw [hx, hxkv]

theorem names_sorted (d : String) {n : Nat} (hn : n ≤ 100) :
    List.Sorted (fun a b => strLe a b = true)
      (List.map (fun i => pyJoin d (pad 2 i ++ ".kdtree")) (List.range n)) := by
  apply List.pairwise_map.mpr
  apply (List.Pairwise.and_mem.mp (List.pairwise_lt_range n)).imp
  intro i j hij
  obtain ⟨_, hjmem, hlt⟩ := hij
  have hj : j ≤ 99 := by
    have := List.mem_range.mp hjmem
    omega
  show strLe (pyJoin d (pad 2 i ++ ".kdtree")) (pyJoin d (pad 2 j ++ ".kdtree")) = true
  unfold strLe
  rw [pyJoin_data, pyJoin_data, charListLe_append_left,
    String.data_append, String.data_append]
  exact pad2_le (by omega) hj _

theorem pySorted_reverse_names (d : String) {n : Nat} (hn : n ≤ 100) :
    pySorted ((List.map (fun i => pyJoin d (pad 2 i ++ ".kdtree")) (List.range n)).reverse) =
      List.map (fun i => pyJoin d (pad 2 i ++ ".kdtree")) (List.range n) := by
  haveI htot : IsTotal String (fun a b => strLe a b = true) := ⟨strLe_total⟩
  haveI htr : IsTrans String (fun a b => strLe a b = true) :=
    ⟨fun a b c hab hbc => strLe_trans hab hbc⟩
  haveI hanti : IsAntisymm String (fun a b => strLe a b = true) :=
    ⟨fun a b hab hba => strLe_antisymm hab hba⟩
  exact List.eq_of_perm_of_sorted
    ((List.perm_insertionSort _ _).trans (List.reverse_perm _))
    (List.sorted_insertionSort _ _) (names_sorted d hn)

/-! ## Claim C8 — scan-by-scan cardinality and recovered order -/

set_option maxRecDepth 40000 in
/-- C8 counterexample: with 101 scan lines, the two-digit zero-padded names
sort lexically as 00..09, 10, 100, 11, ..., so while exactly 101 index files
are persisted, a subsequent load does *not* recover the per-scan indices in
scan-line order, refuting the claim's "for every value of n". -/
theorem C8_101_scans_order_broken :
    countSaves c8Res.trace = 101
    ∧ c8Res2.scan_kd_trees ≠ some (generate_scan_kd_trees c8Swath 1) := by
  constructor
  · decide
  · decide

/-- C8 (amended): for a swath of `n ≤ 100` scan lines processed under
`scan_by_scan` with an initially absent cache directory (and no other files
matching the cache glob), exactly `n` per-scan-line index files are
persisted, and a subsequent load recovers them in scan-line order even
though the filesystem enumerates them in reverse order of writing.  (For
`n ≥ 101` the two-digit padding no longer sorts numerically and the order is
not recovered.) -/
theorem C8_scan_count_and_order (n : Nat) (hn : n ≤ 100) (d : String)
    (hd : '*' ∉ d.data) (kt kt2 : Option KDTree) (sw : SwathGeometry)
    (hsw : sw.scanLines = n) (gg gg2 : GridGeometry) (r r2 c : Rat) (w : World)
    (hdne : w.pathExists d = false)
    (hclean : ∀ p ∈ w.files.map Prod.fst,
      wildMatch (pyJoin d "*.kdtree").data p.data = false) :
    ∃ res, resolveOverlap "scan_by_scan" (some d) kt none sw gg r c w = .ok res
      ∧ countSaves res.trace = n
      ∧ (∀ res2 : OverlapResult,
          resolveOverlap "scan_by_scan" (some d) kt2 none sw gg2 r2 c res.world = .ok res2 →
          res2.scan_kd_trees = some (generate_scan_kd_trees sw c)) := by
  have hov : resolveOverlap "scan_by_scan" (some d) kt none sw gg r c w =
      .ok { kd_tree := match (generate_scan_kd_trees sw c).getLast? with
              | some t => some t
              | none => kt
            scan_kd_trees := some (generate_scan_kd_trees sw c)
            swath_geometry := sw
            kd_tree_path := match (generate_scan_kd_trees sw c).length with
              | 0 => some d
              | Nat.succ k => some (pyJoin d (pad 2 k ++ ".kdtree"))
            world := (saveScanTrees d (generate_scan_kd_trees sw c).enum (w.makedirs d)).1
            trace := Event.buildScanIndices (generate_scan_kd_trees sw c).length
              :: Event.madeDirs d
              :: (saveScanTrees d (generate_scan_kd_trees sw c).enum (w.makedirs d)).2 } := by
    unfold resolveOverlap
    rw [if_neg (by decide), if_pos rfl]
    dsimp only
    rw [if_neg (by rw [hdne]; simp)]
  refine ⟨_, hov, ?_, ?_⟩
  · simp only [countSaves, List.countP_cons]
    rw [saveScanTrees_trace,
      List.countP_eq_length.mpr (by
        intro a ha
        rcases List.mem_map.mp ha with ⟨p, _, hp⟩
        rw [← hp])]
    simp [List.length_map, List.enum_length, generate_scan_kd_trees,
      List.length_range, hsw]
  · intro res2 hres2
    have hw2files :
        (saveScanTrees d (generate_scan_kd_trees sw c).enum (w.makedirs d)).1.files =
        ((List.range n).map (fun i => (pyJoin d (pad 2 i ++ ".kdtree"),
          FileData.kdtreeData (KDTree.scan sw i c)))).reverse ++ w.files := by
      rw [saveScanTrees_world_files, makedirs_files]
      congr 1
      congr 1
      unfold generate_scan_kd_trees
      rw [hsw, enum_range_map, List.map_map]
      rfl
    have hdirex :
        (saveScanTrees d (generate_scan_kd_trees sw c).enum (w.makedirs d)).1.pathExists d
          = true := by
      apply pathExists_of_dirs
      rw [saveScanTrees_dirs]
      exact makedirs_dirs_contains w d
    unfold resolveOverlap at hres2
    rw [if_neg (by decide), if_pos rfl] at hres2
    dsimp only at hres2
    rw [if_pos hdirex] at hres2
    injection hres2 with hres2
    subst hres2
    dsimp only
    have hglob : rawGlob
        (saveScanTrees d (generate_scan_kd_trees sw c).enum (w.makedirs d)).1
        (pyJoin d "*.kdtree") =
        ((List.range n).map (fun i => pyJoin d (pad 2 i ++ ".kdtree"))).reverse := by
      unfold rawGlob
      rw [hw2files, List.map_append, List.map_reverse, List.map_map,
        List.filter_append, List.filter_reverse]
      rw [List.filter_eq_self.mpr (by
        intro a ha
        rcases List.mem_map.mp ha with ⟨i, hi, hia⟩
        have hi99 : i ≤ 99 := by
          have := List.mem_range.mp hi
          omega
        rw [← hia]
        exact kdtreeName_matches hd hi99)]
      rw [List.filter_eq_nil_iff.mpr (by
        intro a ha
        rw [hclean a ha]
        simp)]
      rw [List.append_nil]
      rfl
    have hload : ∀ i ∈ List.range n,
        KDTree.load (saveScanTrees d (generate_scan_kd_trees sw c).enum (w.makedirs d)).1
          (pyJoin d (pad 2 i ++ ".kdtree")) = KDTree.scan sw i c := by
      intro i hi
      have hi99 : i ≤ 99 := by
        have := List.mem_range.mp hi
        omega
      unfold KDTree.load World.read
      rw [find?_key_unique
        (by
          rw [hw2files]
          apply List.mem_append.mpr
          left
          apply List.mem_reverse.mpr
          exact List.mem_map.mpr ⟨i, hi, rfl⟩)
        (by
          intro q hq hqk
          rw [hw2files] at hq
          rcases List.mem_append.mp hq with hq | hq
          · rcases List.mem_map.mp (List.mem_reverse.mp hq) with ⟨j, hj, hjq⟩
            have hj99 : j ≤ 99 := by
              have := List.mem_range.mp hj
              omega
            rw [← hjq] at hqk ⊢
            have : j = i := kdtreeName_inj hj99 hi99 hqk
            rw [this]
          · have hkey : q.1 ∈ w.files.map Prod.fst :=
              List.mem_map.mpr ⟨q, hq, rfl⟩
            have hfalse := hclean q.1 hkey
            rw [hqk, kdtreeName_matches hd hi99] at hfalse
            exact absurd hfalse (by simp))]
      rfl
    rw [hglob, pySorted_reverse_names d hn, List.map_map]
    simp only [Function.comp_def]
    rw [List.map_congr_left (fun i hi => hload i hi)]
    unfold generate_scan_kd_trees
    rw [hsw]

set_option maxRecDepth 40000 in
/-- C8 witness: a 2-scan swath under an absent cache directory over the
empty filesystem persists exactly 2 files and a second dispatch recovers
them in scan order. -/
theorem C8_scan_count_and_order_witness :
    ∃ res, resolveOverlap "scan_by_scan" (some "cache") none none sampleSwath
        (GridGeometry.geographic sampleSwath 1) 100 1 emptyWorld = .ok res
      ∧ countSaves res.trace = 2
      ∧ (∀ res2 : OverlapResult,
          resolveOverlap "scan_by_scan" (some "cache") none none sampleSwath
            (GridGeometry.geographic sampleSwath 1) 100 1 res.world = .ok res2 →
          res2.scan_kd_trees = some (generate_scan_kd_trees sampleSwath 1)) :=
  C8_scan_count_and_order 2 (by decide) "cache" (by decide) none none sampleSwath rfl
    (GridGeometry.geographic sampleSwath 1) (GridGeometry.geographic sampleSwath 1)
    100 100 1 emptyWorld (by decide) (by decide)

/-! ## Claim C9 — exception propagation policy -/

/-- C9 counterexample: a run-config document lacking the `Geometry` group
raises a plain `KeyError` inside config parsing — not a domain exception —
yet the orchestrator returns the `UnableToParseRunConfig` numeric outcome
instead of re-raising the `KeyError` uncaught, because the config
constructor's own `except Exception` handler converts it first. -/
theorem C9_generic_parse_error_converted :
    (L1_L2_RAD_LSTE_run { sampleArgs with doc := docNoGeometry } emptyWorld).outcome =
      .ok (exitCodeOf (.UnableToParseRunConfig
        "unable to parse run-config file: rc.xml")) := by
  decide

/-- C9 (amended): the outermost orchestration boundary translates every
domain exception that reaches it into its numeric exit code and lets every
other exception escape; but exceptions are not caught *exactly once*:
non-domain exceptions raised during run-config parsing are caught inside the
config constructor and replaced by the domain exception
`UnableToParseRunConfig` (so they never escape), and consequently every
exception that does escape the orchestrator is a non-domain exception. -/
theorem C9_exception_boundary :
    (∀ (a : RunArgs) (w : World) (e : PyExc),
        (L1_L2_RAD_LSTE_run a w).outcome = .error e →
        isECOSTRESSExitCodeException e = false)
    ∧ (∀ (f : String) (doc : RunConfigDoc) (gr : GranuleMeta) (e : PyExc),
        L2GL2TRADLSTEConfig_init f doc gr = .error e →
        isECOSTRESSExitCodeException e = true)
    ∧ (∀ (a : RunArgs) (w : World) (e : PyExc) (W : World) (tr : List Event),
        pipelineBody a w = (.error e, W, tr) →
        (L1_L2_RAD_LSTE_run a w).outcome =
          (if isECOSTRESSExitCodeException e = true then .ok (exitCodeOf e)
           else .error e)) := by
  refine ⟨?_, fun f doc gr e h => configInit_error_domain h, ?_⟩
  · intro a w e h
    cases hcfg : L2GL2TRADLSTEConfig_init a.runconfig_filename a.doc a.granule with
    | error e' =>
      unfold L1_L2_RAD_LSTE_run at h
      rw [pipelineBody_err_init hcfg] at h
      dsimp only at h
      rw [if_pos (configInit_error_domain hcfg)] at h
      exact Except.noConfusion h
    | ok cfg =>
      cases hgg : resolveGriddedGeometry a.gridded_geometry a.projection_system
          a.granule.geometry a.cell_size_meters a.cell_size_degrees with
      | error e' =>
        obtain ⟨-, -, -, he'⟩ := resolveGriddedGeometry_error_shape hgg
        subst he'
        unfold L1_L2_RAD_LSTE_run at h
        rw [pipelineBody_err_gg hcfg hgg] at h
        dsimp only at h
        rw [if_neg (by simp [isECOSTRESSExitCodeException])] at h
        injection h with h
        rw [← h]
        rfl
      | ok gg0 =>
        cases hov : resolveOverlap a.overlap_strategy
            (effectiveKDTreePath a.kd_tree_path cfg) a.kd_tree a.scan_kd_trees
            a.granule.geometry gg0 a.search_radius_meters a.cell_size_degrees w with
        | error e' =>
          have he' := resolveOverlap_error_shape hov
          subst he'
          unfold L1_L2_RAD_LSTE_run at h
          rw [pipelineBody_err_ov hcfg hgg hov] at h
          dsimp only at h
          rw [if_neg (by simp [isECOSTRESSExitCodeException])] at h
          injection h with h
          rw [← h]
          rfl
        | ok r =>
          unfold L1_L2_RAD_LSTE_run at h
          rw [pipelineBody_ok_decomp hcfg hgg hov] at h
          dsimp only at h
          exact Except.noConfusion h
  · intro a w e W tr h
    unfold L1_L2_RAD_LSTE_run
    rw [h]
    dsimp only
    by_cases hd : isECOSTRESSExitCodeException e = true
    · rw [if_pos hd, if_pos hd]
    · rw [if_neg hd, if_neg hd]

/-- C9 witness: the strategy `ValueError` that escapes the sample run is
non-domain, and the missing-`Geometry` run maps its converted domain
exception to the corresponding exit code at the boundary. -/
theorem C9_exception_boundary_witness :
    isECOSTRESSExitCodeException
        (.ValueError ("unrecognized overlap strategy: " ++ "bogus")) = false
    ∧ (L1_L2_RAD_LSTE_run { sampleArgs with doc := docNoGeometry } emptyWorld).outcome =
        (if isECOSTRESSExitCodeException
              (.UnableToParseRunConfig "unable to parse run-config file: rc.xml") = true
         then .ok (exitCodeOf
            (.UnableToParseRunConfig "unable to parse run-config file: rc.xml"))
         else .error (.UnableToParseRunConfig "unable to parse run-config file: rc.xml")) := by
  have h := C9_exception_boundary
  exact ⟨h.1 { sampleArgs with overlap_strategy := "bogus" } emptyWorld
      (.ValueError ("unrecognized overlap strategy: " ++ "bogus")) (by decide),
    h.2.2 { sampleArgs with doc := docNoGeometry } emptyWorld
      (.UnableToParseRunConfig "unable to parse run-config file: rc.xml")
      emptyWorld [] (by decide)⟩

/-! ## Claim C10 — None working directory raises TypeError -/

/-- C10: calling the run-config generator with an existing L2 LSTE file, the
companion filenames and identifiers supplied, but `working_directory=None`
together with `output_directory=None` (or `runconfig_filename=None`),
raises `TypeError` from `os.path.join(None, ...)` — the line-155/196 joins
run before the `working_directory is None` default of lines 208-209. -/
theorem C10_working_directory_TypeError (g : GenArgs) (env : GenEnv) (w : World)
    (c geo rad : String) (ob sc : Nat) (bd : String)
    (hex : w.pathExists g.L2_LSTE_filename = true)
    (hwd : g.working_directory = none)
    (hc : g.L2_CLOUD_filename = some c) (hgeo : g.L1B_GEO_filename = some geo)
    (hrad : g.L1B_RAD_filename = some rad)
    (hob : g.orbit = some ob) (hsc : g.scene = some sc) (hbd : g.build = some bd)
    (hout : g.output_directory = none ∨ g.runconfig_filename = none) :
    generate_L1_L2_RAD_LSTE_runconfig g env w =
      .error (.TypeError "expected str, bytes or os.PathLike object, not NoneType") := by
  unfold generate_L1_L2_RAD_LSTE_runconfig
  rcases hout with hout | hout
  · simp [hex, hwd, hc, hgeo, hrad, hob, hsc, hbd, hout, pyJoinOpt,
      bind, Except.bind, pure, Except.pure]
  · cases hog : g.output_directory with
    | none =>
      simp [hex, hwd, hc, hgeo, hrad, hob, hsc, hbd, hog, pyJoinOpt,
        bind, Except.bind, pure, Except.pure]
    | some o =>
      simp [hex, hwd, hc, hgeo, hrad, hob, hsc, hbd, hog, hout, pyJoinOpt,
        bind, Except.bind, pure, Except.pure]

/-- C10 witness: both argument shapes — no output directory, and an output
directory with no run-config filename — raise the `TypeError` on the
concrete fixture filesystem. -/
theorem C10_working_directory_TypeError_witness :
    generate_L1_L2_RAD_LSTE_runconfig c10Args c10Env c10World =
      .error (.TypeError "expected str, bytes or os.PathLike object, not NoneType")
    ∧ generate_L1_L2_RAD_LSTE_runconfig c10ArgsB c10Env c10World =
      .error (.TypeError "expected str, bytes or os.PathLike object, not NoneType") :=
  ⟨C10_working_directory_TypeError c10Args c10Env c10World
      "in/cloud.h5" "in/geo.h5" "in/rad.h5" 5 3 "0700"
      (by decide) rfl rfl rfl rfl rfl rfl rfl (Or.inl rfl),
   C10_working_directory_TypeError c10ArgsB c10Env c10World
      "in/cloud.h5" "in/geo.h5" "in/rad.h5" 5 3 "0700"
      (by decide) rfl rfl rfl rfl rfl rfl rfl (Or.inr rfl)⟩

end RADLSTE
